import Mathlib

/-
Verification development for the commonmarker C extension
(ext/commonmarker/commonmarker.c).

The document tree is shallowly embedded as a store of node records indexed
by natural numbers (node identifiers).  Functions named `rb_...` are
translated directly from the C binding source; functions named `cmark_...`
belong to the bundled cmark library, whose sources are not part of the
binding file, and are therefore modelled from the specification (each such
definition carries a doc comment starting with "Modelled from the spec:").
-/

set_option maxHeartbeats 2000000
set_option maxRecDepth 4000

/-- Node kinds of the cmark node-type enumeration.  Modelled from the spec:
the closed enumeration of §3, partitioned into block and inline kinds, with
`NONE` as the error status value of the underlying enumeration; the header
defining the numeric values is not part of the binding source. -/
inductive cmark_node_type where
  | NONE
  | DOCUMENT
  | BLOCK_QUOTE
  | LIST
  | ITEM
  | CODE_BLOCK
  | HTML
  | PARAGRAPH
  | HEADER
  | HRULE
  | TEXT
  | SOFTBREAK
  | LINEBREAK
  | CODE
  | INLINE_HTML
  | EMPH
  | STRONG
  | LINK
  | IMAGE
deriving DecidableEq

/-- List types of cmark.  Modelled from the spec: `list_type` is bullet or
ordered; `NO_LIST` is the error status value of the underlying enumeration. -/
inductive cmark_list_type where
  | NO_LIST
  | BULLET_LIST
  | ORDERED_LIST
deriving DecidableEq

/-- One node record: the payload fields of §3 plus the structural links
(parent / first child / last child / previous / next, as optional node ids)
plus the two pieces of binding state stored per node: whether a Ruby wrapper
object has been cached in `user_data`, and whether that wrapper currently has
its free function (`dfree`) installed. -/
structure cmark_node where
  type : cmark_node_type
  literal : String := ""
  url : String := ""
  title : String := ""
  header_level : Int := 0
  list_type : cmark_list_type := cmark_list_type.NO_LIST
  list_start : Int := 0
  list_tight : Bool := false
  fence_info : String := ""
  parent : Option Nat := none
  first_child : Option Nat := none
  last_child : Option Nat := none
  prev : Option Nat := none
  next : Option Nat := none
  user_data : Bool := false
  dfree : Bool := false
deriving DecidableEq

/-- The node record returned when a node id is unallocated. -/
def defaultNode : cmark_node :=
  { type := cmark_node_type.NONE }

/-- The node store: all node records, indexed by node id. -/
structure NodeStore where
  nodes : List cmark_node
deriving DecidableEq

/-- Read the record of node `n`. -/
def NodeStore.get (t : NodeStore) (n : Nat) : cmark_node :=
  (t.nodes[n]?).getD defaultNode

/-- Replace the record of node `n`. -/
def NodeStore.set (t : NodeStore) (n : Nat) (v : cmark_node) : NodeStore :=
  NodeStore.mk (t.nodes.set n v)

/-- Update the record of node `n` in place. -/
def NodeStore.modify (t : NodeStore) (n : Nat) (f : cmark_node → cmark_node) : NodeStore :=
  t.set n (f (t.get n))

theorem list_getElem?_set_self {α : Type} (l : List α) (i : Nat) (v : α)
    (h : i < l.length) : (l.set i v)[i]? = some v := by
  induction l generalizing i with
  | nil => simp at h
  | cons a l ih =>
    cases i with
    | zero => simp [List.set]
    | succ j =>
      simp only [List.set, List.getElem?_cons_succ]
      exact ih j (by simpa using h)

theorem list_getElem?_set_ne {α : Type} (l : List α) (i j : Nat) (v : α)
    (h : i ≠ j) : (l.set i v)[j]? = l[j]? := by
  induction l generalizing i j with
  | nil => simp
  | cons a l ih =>
    cases i with
    | zero =>
      cases j with
      | zero => exact absurd rfl h
      | succ k => simp [List.set]
    | succ i2 =>
      cases j with
      | zero => simp [List.set]
      | succ k =>
        simp only [List.set, List.getElem?_cons_succ]
        exact ih i2 k (fun hh => h (by rw [hh]))

theorem list_set_getD_self {α : Type} (l : List α) (i : Nat) (d : α)
    (h : i < l.length) : l.set i ((l[i]?).getD d) = l := by
  induction l generalizing i with
  | nil => simp at h
  | cons a l ih =>
    cases i with
    | zero => simp [List.set]
    | succ j =>
      simp only [List.getElem?_cons_succ, List.set]
      rw [ih j (by simpa using h)]

theorem list_set_ge {α : Type} (l : List α) (i : Nat) (v : α)
    (h : l.length ≤ i) : l.set i v = l := by
  induction l generalizing i with
  | nil => simp
  | cons a l ih =>
    cases i with
    | zero => simp at h
    | succ j =>
      simp only [List.set]
      rw [ih j (by simpa using h)]

theorem NodeStore.get_set_self (t : NodeStore) (i : Nat) (v : cmark_node)
    (h : i < t.nodes.length) : (t.set i v).get i = v := by
  simp [NodeStore.get, NodeStore.set, list_getElem?_set_self t.nodes i v h]

theorem NodeStore.get_set_ne (t : NodeStore) (i j : Nat) (v : cmark_node)
    (h : i ≠ j) : (t.set i v).get j = t.get j := by
  simp [NodeStore.get, NodeStore.set, list_getElem?_set_ne t.nodes i j v h]

theorem NodeStore.set_get_self (t : NodeStore) (i : Nat) : t.set i (t.get i) = t := by
  rcases Nat.lt_or_ge i t.nodes.length with h | h
  · simp [NodeStore.get, NodeStore.set]
    rw [list_set_getD_self t.nodes i defaultNode h]
  · simp [NodeStore.set]
    rw [list_set_ge t.nodes i _ h]

theorem NodeStore.length_set (t : NodeStore) (i : Nat) (v : cmark_node) :
    (t.set i v).nodes.length = t.nodes.length := by
  simp [NodeStore.set]

theorem NodeStore.get_ge (t : NodeStore) (i : Nat) (h : t.nodes.length ≤ i) :
    t.get i = defaultNode := by
  simp [NodeStore.get]
  rw [List.getElem?_eq_none h]
  rfl

/-! ## cmark payload accessors (library side, modelled from the spec) -/

/-- Kinds that carry literal text.  Modelled from the spec: §3 says `literal`
is present for text/code/code_block/html kinds (both block html and inline
html). -/
def literalKind : cmark_node_type → Bool
  | cmark_node_type.TEXT => true
  | cmark_node_type.INLINE_HTML => true
  | cmark_node_type.CODE => true
  | cmark_node_type.HTML => true
  | cmark_node_type.CODE_BLOCK => true
  | _ => false

/-- Modelled from the spec: `cmark_node_get_literal` yields the literal text
for kinds that carry one and a null result (here `none`) otherwise (§4.3:
get fails if the kind never carries literal text). -/
def cmark_node_get_literal (t : NodeStore) (n : Nat) : Option String :=
  if literalKind (t.get n).type then some (t.get n).literal else none

/-- Modelled from the spec: `cmark_node_set_literal` sets the literal text
for kinds that carry one and reports failure (status 0, state unchanged)
otherwise; setters are atomic (§4.3, §7). -/
def cmark_node_set_literal (t : NodeStore) (n : Nat) (s : String) :
    Bool × NodeStore :=
  if literalKind (t.get n).type then
    (true, t.modify n (fun x => { x with literal := s }))
  else (false, t)

/-- Modelled from the spec: `cmark_node_get_type` reads the node kind. -/
def cmark_node_get_type (t : NodeStore) (n : Nat) : cmark_node_type :=
  (t.get n).type

/-- Modelled from the spec: `cmark_node_get_url`; URL is valid only for
link/image (§4.3), null otherwise. -/
def cmark_node_get_url (t : NodeStore) (n : Nat) : Option String :=
  match (t.get n).type with
  | cmark_node_type.LINK => some (t.get n).url
  | cmark_node_type.IMAGE => some (t.get n).url
  | _ => none

/-- Modelled from the spec: `cmark_node_set_url`; valid only for link/image,
atomic failure otherwise. -/
def cmark_node_set_url (t : NodeStore) (n : Nat) (s : String) :
    Bool × NodeStore :=
  match (t.get n).type with
  | cmark_node_type.LINK => (true, t.modify n (fun x => { x with url := s }))
  | cmark_node_type.IMAGE => (true, t.modify n (fun x => { x with url := s }))
  | _ => (false, t)

/-- Modelled from the spec: `cmark_node_get_title`; valid only for
link/image, null otherwise. -/
def cmark_node_get_title (t : NodeStore) (n : Nat) : Option String :=
  match (t.get n).type with
  | cmark_node_type.LINK => some (t.get n).title
  | cmark_node_type.IMAGE => some (t.get n).title
  | _ => none

/-- Modelled from the spec: `cmark_node_set_title`; valid only for
link/image, atomic failure otherwise. -/
def cmark_node_set_title (t : NodeStore) (n : Nat) (s : String) :
    Bool × NodeStore :=
  match (t.get n).type with
  | cmark_node_type.LINK => (true, t.modify n (fun x => { x with title := s }))
  | cmark_node_type.IMAGE => (true, t.modify n (fun x => { x with title := s }))
  | _ => (false, t)

/-- Modelled from the spec: `cmark_node_get_header_level` yields the heading
level for a header node and the error value 0 otherwise. -/
def cmark_node_get_header_level (t : NodeStore) (n : Nat) : Int :=
  match (t.get n).type with
  | cmark_node_type.HEADER => (t.get n).header_level
  | _ => 0

/-- Modelled from the spec: `cmark_node_set_header_level`; valid only for a
header node with a level in the supported range 1..6 (§4.3: out-of-range is
an error, not silently clamped); atomic failure otherwise. -/
def cmark_node_set_header_level (t : NodeStore) (n : Nat) (l : Int) :
    Bool × NodeStore :=
  if (t.get n).type = cmark_node_type.HEADER ∧ 1 ≤ l ∧ l ≤ 6 then
    (true, t.modify n (fun x => { x with header_level := l }))
  else (false, t)

/-- Modelled from the spec: `cmark_node_get_list_type` yields the list type
for a list node and the error value `NO_LIST` otherwise. -/
def cmark_node_get_list_type (t : NodeStore) (n : Nat) : cmark_list_type :=
  match (t.get n).type with
  | cmark_node_type.LIST => (t.get n).list_type
  | _ => cmark_list_type.NO_LIST

/-- Modelled from the spec: `cmark_node_set_list_type`; valid only for a
list node and a bullet/ordered value; atomic failure otherwise. -/
def cmark_node_set_list_type (t : NodeStore) (n : Nat) (lt : cmark_list_type) :
    Bool × NodeStore :=
  if (t.get n).type = cmark_node_type.LIST ∧
      (lt = cmark_list_type.BULLET_LIST ∨ lt = cmark_list_type.ORDERED_LIST) then
    (true, t.modify n (fun x => { x with list_type := lt }))
  else (false, t)

/-- Modelled from the spec: `cmark_node_get_list_start` yields the start
number for a list node and the error value 0 otherwise. -/
def cmark_node_get_list_start (t : NodeStore) (n : Nat) : Int :=
  match (t.get n).type with
  | cmark_node_type.LIST => (t.get n).list_start
  | _ => 0

/-- Modelled from the spec: `cmark_node_set_list_start`; §3 and §4.3 make
`list_start` valid to write only when the kind is list and the list type is
ordered; atomic failure otherwise. -/
def cmark_node_set_list_start (t : NodeStore) (n : Nat) (s : Int) :
    Bool × NodeStore :=
  if (t.get n).type = cmark_node_type.LIST ∧
      (t.get n).list_type = cmark_list_type.ORDERED_LIST then
    (true, t.modify n (fun x => { x with list_start := s }))
  else (false, t)

/-- Modelled from the spec: `cmark_node_get_list_tight` yields tightness for
a list node and false otherwise. -/
def cmark_node_get_list_tight (t : NodeStore) (n : Nat) : Bool :=
  match (t.get n).type with
  | cmark_node_type.LIST => (t.get n).list_tight
  | _ => false

/-- Modelled from the spec: `cmark_node_set_list_tight`; valid only for a
list node; atomic failure otherwise. -/
def cmark_node_set_list_tight (t : NodeStore) (n : Nat) (b : Bool) :
    Bool × NodeStore :=
  if (t.get n).type = cmark_node_type.LIST then
    (true, t.modify n (fun x => { x with list_tight := b }))
  else (false, t)

/-- Modelled from the spec: `cmark_node_get_fence_info`; valid only for a
code block, null otherwise. -/
def cmark_node_get_fence_info (t : NodeStore) (n : Nat) : Option String :=
  match (t.get n).type with
  | cmark_node_type.CODE_BLOCK => some (t.get n).fence_info
  | _ => none

/-- Modelled from the spec: `cmark_node_set_fence_info`; valid only for a
code block; atomic failure otherwise. -/
def cmark_node_set_fence_info (t : NodeStore) (n : Nat) (s : String) :
    Bool × NodeStore :=
  match (t.get n).type with
  | cmark_node_type.CODE_BLOCK =>
    (true, t.modify n (fun x => { x with fence_info := s }))
  | _ => (false, t)

/-! ## cmark navigation (library side, modelled from the spec) -/

/-- Modelled from the spec: `cmark_node_parent` reads the parent link (§4.2
navigation is a read-only field access that never fails). -/
def cmark_node_parent (t : NodeStore) (n : Nat) : Option Nat :=
  (t.get n).parent

/-- Modelled from the spec: `cmark_node_first_child` reads the first-child
link. -/
def cmark_node_first_child (t : NodeStore) (n : Nat) : Option Nat :=
  (t.get n).first_child

/-- Modelled from the spec: `cmark_node_last_child` reads the last-child
link. -/
def cmark_node_last_child (t : NodeStore) (n : Nat) : Option Nat :=
  (t.get n).last_child

/-- Modelled from the spec: `cmark_node_next` reads the next-sibling link. -/
def cmark_node_next (t : NodeStore) (n : Nat) : Option Nat :=
  (t.get n).next

/-- Modelled from the spec: `cmark_node_previous` reads the previous-sibling
link. -/
def cmark_node_previous (t : NodeStore) (n : Nat) : Option Nat :=
  (t.get n).prev

/-! ## cmark topology engine (library side, modelled from the spec) -/

/-- Chain of ancestors starting from an optional node id, bounded by fuel. -/
def parentChainAux (t : NodeStore) : Option Nat → Nat → List Nat
  | none, _ => []
  | some _, 0 => []
  | some i, fuel + 1 => i :: parentChainAux t (t.get i).parent fuel

/-- All strict ancestors of `n` (fuel equals the store size, enough for any
acyclic tree). -/
def parentChain (t : NodeStore) (n : Nat) : List Nat :=
  parentChainAux t (t.get n).parent t.nodes.length

/-- Whether `a` is a strict ancestor of `n`. -/
def is_ancestor (t : NodeStore) (a n : Nat) : Bool :=
  (parentChain t n).contains a

/-- Modelled from the spec: the unlink repair step of §4.2 — remove a node
from its parent/sibling chain, repairing the previous and next neighbor
links and the parent first/last-child links. -/
def S_node_unlink (t : NodeStore) (n : Nat) : NodeStore :=
  let nd := t.get n
  let t1 := match nd.prev with
    | some a => t.modify a (fun x => { x with next := nd.next })
    | none => t
  let t2 := match nd.next with
    | some b => t1.modify b (fun x => { x with prev := nd.prev })
    | none => t1
  match nd.parent with
  | some p =>
    let t3 := if (t2.get p).first_child = some n then
        t2.modify p (fun x => { x with first_child := nd.next })
      else t2
    if (t3.get p).last_child = some n then
      t3.modify p (fun x => { x with last_child := nd.prev })
    else t3
  | none => t2

/-- Modelled from the spec: `cmark_node_unlink` removes the node from its
current parent/sibling chain (repairing the parent first/last-child links
and the neighbor next/previous links) and clears the node structural links,
making it a root (§4.2). -/
def cmark_node_unlink (t : NodeStore) (n : Nat) : NodeStore :=
  (S_node_unlink t n).modify n
    (fun x => { x with parent := none, prev := none, next := none })

/-- Modelled from the spec: `cmark_node_insert_before` requires the anchor to
have a parent (status 0 otherwise, no mutation), unlinks the new sibling from
its current location first, then splices it directly before the anchor and
sets its parent to the anchor parent (§4.2). -/
def cmark_node_insert_before (t : NodeStore) (node sib : Nat) :
    Bool × NodeStore :=
  match (t.get node).parent with
  | none => (false, t)
  | some par =>
    let t1 := cmark_node_unlink t sib
    let oldPrev := (t1.get node).prev
    let t2 := match oldPrev with
      | some a => t1.modify a (fun x => { x with next := some sib })
      | none => t1
    let t3 := t2.modify sib
      (fun x => { x with parent := some par, prev := oldPrev, next := some node })
    let t4 := t3.modify node (fun x => { x with prev := some sib })
    if oldPrev = none then
      (true, t4.modify par (fun x => { x with first_child := some sib }))
    else (true, t4)

/-- Modelled from the spec: `cmark_node_insert_after`, mirror image of
insert-before (§4.2). -/
def cmark_node_insert_after (t : NodeStore) (node sib : Nat) :
    Bool × NodeStore :=
  match (t.get node).parent with
  | none => (false, t)
  | some par =>
    let t1 := cmark_node_unlink t sib
    let oldNext := (t1.get node).next
    let t2 := match oldNext with
      | some b => t1.modify b (fun x => { x with prev := some sib })
      | none => t1
    let t3 := t2.modify sib
      (fun x => { x with parent := some par, prev := some node, next := oldNext })
    let t4 := t3.modify node (fun x => { x with next := some sib })
    if oldNext = none then
      (true, t4.modify par (fun x => { x with last_child := some sib }))
    else (true, t4)

/-- Modelled from the spec: `cmark_node_append_child` fails (status 0, no
mutation) when the new child is the node itself or one of its ancestors —
appending would create a cycle (§4.2, §9) — and otherwise unlinks the new
child first and makes it the last child of the node, relinking the previous
last child (§4.2). -/
def cmark_node_append_child (t : NodeStore) (node child : Nat) :
    Bool × NodeStore :=
  if node = child ∨ is_ancestor t child node then (false, t)
  else
    let t1 := cmark_node_unlink t child
    match (t1.get node).last_child with
    | some l =>
      let t2 := t1.modify l (fun x => { x with next := some child })
      let t3 := t2.modify child
        (fun x => { x with parent := some node, prev := some l, next := none })
      (true, t3.modify node (fun x => { x with last_child := some child }))
    | none =>
      let t2 := t1.modify child
        (fun x => { x with parent := some node, prev := none, next := none })
      (true, t2.modify node
        (fun x => { x with first_child := some child, last_child := some child }))

/-- Modelled from the spec: `cmark_node_prepend_child`, mirror image of
append-child (§4.2, §9). -/
def cmark_node_prepend_child (t : NodeStore) (node child : Nat) :
    Bool × NodeStore :=
  if node = child ∨ is_ancestor t child node then (false, t)
  else
    let t1 := cmark_node_unlink t child
    match (t1.get node).first_child with
    | some f =>
      let t2 := t1.modify f (fun x => { x with prev := some child })
      let t3 := t2.modify child
        (fun x => { x with parent := some node, prev := none, next := some f })
      (true, t3.modify node (fun x => { x with first_child := some child }))
    | none =>
      let t2 := t1.modify child
        (fun x => { x with parent := some node, prev := none, next := none })
      (true, t2.modify node
        (fun x => { x with first_child := some child, last_child := some child }))

/-! ## Ruby binding layer (translated from ext/commonmarker/commonmarker.c) -/

/-- Ruby values the binding produces. -/
inductive RbValue where
  | nil
  | bool (b : Bool)
  | int (n : Int)
  | str (s : String)
  | sym (s : String)
  | node (n : Nat)
deriving DecidableEq

/-- Exceptions the binding raises. -/
inductive RbErr where
  | NodeError (msg : String)
deriving DecidableEq

/-- A binding call result: the raised exception or the returned value,
together with the post-call store. -/
abbrev RbResult := Except RbErr RbValue × NodeStore

/-- Whether a binding call raised. -/
def raised (r : RbResult) : Bool :=
  match r.1 with
  | Except.error _ => true
  | Except.ok _ => false

/-- Translation of `rb_node_to_value` (commonmarker.c lines 50-69): a null
node becomes nil; a node with a cached wrapper returns it; otherwise a
wrapper is created whose free function is installed only when the node is a
tree root, and cached in the node user data. -/
def rb_node_to_value (t : NodeStore) (n : Option Nat) : RbValue × NodeStore :=
  match n with
  | none => (RbValue.nil, t)
  | some i =>
    if (t.get i).user_data then (RbValue.node i, t)
    else
      (RbValue.node i,
       t.modify i (fun x =>
         { x with user_data := true, dfree := decide (x.parent = none) }))

/-- Translation of `rb_parent_added` (lines 73-77): clear the free function
of the wrapper of the given node. -/
def rb_parent_added (t : NodeStore) (n : Nat) : NodeStore :=
  t.modify n (fun x => { x with dfree := false })

/-- Translation of `rb_parent_removed` (lines 79-83): install the free
function of the wrapper of the given node. -/
def rb_parent_removed (t : NodeStore) (n : Nat) : NodeStore :=
  t.modify n (fun x => { x with dfree := true })

/-- Translation of `rb_node_get_string_content` (lines 144-156). -/
def rb_node_get_string_content (t : NodeStore) (n : Nat) : RbResult :=
  match cmark_node_get_literal t n with
  | none => (Except.error (RbErr.NodeError "could not get string content"), t)
  | some s => (Except.ok (RbValue.str s), t)

/-- Translation of `rb_node_set_string_content` (lines 163-175). -/
def rb_node_set_string_content (t : NodeStore) (n : Nat) (s : String) : RbResult :=
  match cmark_node_set_literal t n s with
  | (false, t1) => (Except.error (RbErr.NodeError "could not set string content"), t1)
  | (true, t1) => (Except.ok RbValue.nil, t1)

/-- Translation of `rb_node_get_type` (lines 180-231): map each of the 18
supported kinds to its fixed symbol and raise `NodeError` on any other kind
value. -/
def rb_node_get_type (t : NodeStore) (n : Nat) : RbResult :=
  match cmark_node_get_type t n with
  | cmark_node_type.DOCUMENT => (Except.ok (RbValue.sym "document"), t)
  | cmark_node_type.BLOCK_QUOTE => (Except.ok (RbValue.sym "blockquote"), t)
  | cmark_node_type.LIST => (Except.ok (RbValue.sym "list"), t)
  | cmark_node_type.ITEM => (Except.ok (RbValue.sym "list_item"), t)
  | cmark_node_type.CODE_BLOCK => (Except.ok (RbValue.sym "code_block"), t)
  | cmark_node_type.HTML => (Except.ok (RbValue.sym "html"), t)
  | cmark_node_type.PARAGRAPH => (Except.ok (RbValue.sym "paragraph"), t)
  | cmark_node_type.HEADER => (Except.ok (RbValue.sym "header"), t)
  | cmark_node_type.HRULE => (Except.ok (RbValue.sym "hrule"), t)
  | cmark_node_type.TEXT => (Except.ok (RbValue.sym "text"), t)
  | cmark_node_type.SOFTBREAK => (Except.ok (RbValue.sym "softbreak"), t)
  | cmark_node_type.LINEBREAK => (Except.ok (RbValue.sym "linebreak"), t)
  | cmark_node_type.CODE => (Except.ok (RbValue.sym "code"), t)
  | cmark_node_type.INLINE_HTML => (Except.ok (RbValue.sym "inline_html"), t)
  | cmark_node_type.EMPH => (Except.ok (RbValue.sym "emph"), t)
  | cmark_node_type.STRONG => (Except.ok (RbValue.sym "strong"), t)
  | cmark_node_type.LINK => (Except.ok (RbValue.sym "link"), t)
  | cmark_node_type.IMAGE => (Except.ok (RbValue.sym "image"), t)
  | cmark_node_type.NONE =>
    (Except.error (RbErr.NodeError "invalid node type"), t)

/-- Translation of `rb_node_unlink` (lines 246-257): unlink in the library,
then `rb_parent_removed` on the wrapper. -/
def rb_node_unlink (t : NodeStore) (n : Nat) : RbResult :=
  (Except.ok RbValue.nil, rb_parent_removed (cmark_node_unlink t n) n)

/-- Translation of `rb_node_first_child` (lines 259-268). -/
def rb_node_first_child (t : NodeStore) (n : Nat) : RbResult :=
  let r := rb_node_to_value t (cmark_node_first_child t n)
  (Except.ok r.1, r.2)

/-- Translation of `rb_node_next` (lines 270-279). -/
def rb_node_next (t : NodeStore) (n : Nat) : RbResult :=
  let r := rb_node_to_value t (cmark_node_next t n)
  (Except.ok r.1, r.2)

/-- Translation of `rb_node_insert_before` (lines 286-302). -/
def rb_node_insert_before (t : NodeStore) (node sib : Nat) : RbResult :=
  match cmark_node_insert_before t node sib with
  | (false, t1) => (Except.error (RbErr.NodeError "could not insert before"), t1)
  | (true, t1) => (Except.ok RbValue.nil, rb_parent_added t1 sib)

/-- Translation of `rb_node_insert_after` (lines 322-338). -/
def rb_node_insert_after (t : NodeStore) (node sib : Nat) : RbResult :=
  match cmark_node_insert_after t node sib with
  | (false, t1) => (Except.error (RbErr.NodeError "could not insert after"), t1)
  | (true, t1) => (Except.ok RbValue.nil, rb_parent_added t1 sib)

/-- Translation of `rb_node_prepend_child` (lines 346-362). -/
def rb_node_prepend_child (t : NodeStore) (node child : Nat) : RbResult :=
  match cmark_node_prepend_child t node child with
  | (false, t1) => (Except.error (RbErr.NodeError "could not prepend child"), t1)
  | (true, t1) => (Except.ok RbValue.nil, rb_parent_added t1 child)

/-- Translation of `rb_node_append_child` (lines 370-386). -/
def rb_node_append_child (t : NodeStore) (node child : Nat) : RbResult :=
  match cmark_node_append_child t node child with
  | (false, t1) => (Except.error (RbErr.NodeError "could not append child"), t1)
  | (true, t1) => (Except.ok RbValue.nil, rb_parent_added t1 child)

/-- Translation of `rb_node_last_child` (lines 389-398). -/
def rb_node_last_child (t : NodeStore) (n : Nat) : RbResult :=
  let r := rb_node_to_value t (cmark_node_last_child t n)
  (Except.ok r.1, r.2)

/-- Translation of `rb_node_parent` (lines 401-410). -/
def rb_node_parent (t : NodeStore) (n : Nat) : RbResult :=
  let r := rb_node_to_value t (cmark_node_parent t n)
  (Except.ok r.1, r.2)

/-- Translation of `rb_node_previous` (lines 413-422). -/
def rb_node_previous (t : NodeStore) (n : Nat) : RbResult :=
  let r := rb_node_to_value t (cmark_node_previous t n)
  (Except.ok r.1, r.2)

/-- Translation of `rb_node_get_url` (lines 428-440). -/
def rb_node_get_url (t : NodeStore) (n : Nat) : RbResult :=
  match cmark_node_get_url t n with
  | none => (Except.error (RbErr.NodeError "could not get url"), t)
  | some s => (Except.ok (RbValue.str s), t)

/-- Translation of `rb_node_set_url` (lines 447-459). -/
def rb_node_set_url (t : NodeStore) (n : Nat) (s : String) : RbResult :=
  match cmark_node_set_url t n s with
  | (false, t1) => (Except.error (RbErr.NodeError "could not set url"), t1)
  | (true, t1) => (Except.ok RbValue.nil, t1)

/-- Translation of `rb_node_get_title` (lines 465-477). -/
def rb_node_get_title (t : NodeStore) (n : Nat) : RbResult :=
  match cmark_node_get_title t n with
  | none => (Except.error (RbErr.NodeError "could not get title"), t)
  | some s => (Except.ok (RbValue.str s), t)

/-- Translation of `rb_node_set_title` (lines 484-496). -/
def rb_node_set_title (t : NodeStore) (n : Nat) (s : String) : RbResult :=
  match cmark_node_set_title t n s with
  | (false, t1) => (Except.error (RbErr.NodeError "could not set title"), t1)
  | (true, t1) => (Except.ok RbValue.nil, t1)

/-- Translation of `rb_node_get_header_level` (lines 502-515): the library
getter yields 0 exactly on failure, and the binding raises on 0. -/
def rb_node_get_header_level (t : NodeStore) (n : Nat) : RbResult :=
  let hl := cmark_node_get_header_level t n
  if hl = 0 then (Except.error (RbErr.NodeError "could not get header_level"), t)
  else (Except.ok (RbValue.int hl), t)

/-- Translation of `rb_node_set_header_level` (lines 522-536); the
`Check_Type(level, T_FIXNUM)` guard is reflected in the integer type of the
argument. -/
def rb_node_set_header_level (t : NodeStore) (n : Nat) (l : Int) : RbResult :=
  match cmark_node_set_header_level t n l with
  | (false, t1) => (Except.error (RbErr.NodeError "could not set header_level"), t1)
  | (true, t1) => (Except.ok RbValue.nil, t1)

/-- Translation of `rb_node_get_list_type` (lines 542-562). -/
def rb_node_get_list_type (t : NodeStore) (n : Nat) : RbResult :=
  match cmark_node_get_list_type t n with
  | cmark_list_type.BULLET_LIST => (Except.ok (RbValue.sym "bullet_list"), t)
  | cmark_list_type.ORDERED_LIST => (Except.ok (RbValue.sym "ordered_list"), t)
  | cmark_list_type.NO_LIST =>
    (Except.error (RbErr.NodeError "could not get list_type"), t)

/-- Translation of `rb_node_set_list_type` (lines 570-584). -/
def rb_node_set_list_type (t : NodeStore) (n : Nat) (lt : cmark_list_type) : RbResult :=
  match cmark_node_set_list_type t n lt with
  | (false, t1) => (Except.error (RbErr.NodeError "could not set list_type"), t1)
  | (true, t1) => (Except.ok RbValue.nil, t1)

/-- Translation of `rb_node_get_list_start` (lines 591-605): the binding
itself raises unless the node is a list of ordered type. -/
def rb_node_get_list_start (t : NodeStore) (n : Nat) : RbResult :=
  if cmark_node_get_type t n ≠ cmark_node_type.LIST ∨
      cmark_node_get_list_type t n ≠ cmark_list_type.ORDERED_LIST then
    (Except.error (RbErr.NodeError "cannot get list_start for non-ordered list"), t)
  else (Except.ok (RbValue.int (cmark_node_get_list_start t n)), t)

/-- Translation of `rb_node_set_list_start` (lines 613-627). -/
def rb_node_set_list_start (t : NodeStore) (n : Nat) (s : Int) : RbResult :=
  match cmark_node_set_list_start t n s with
  | (false, t1) => (Except.error (RbErr.NodeError "could not set list_start"), t1)
  | (true, t1) => (Except.ok RbValue.nil, t1)

/-- Translation of `rb_node_get_list_tight` (lines 633-647): the binding
itself raises unless the node is a list. -/
def rb_node_get_list_tight (t : NodeStore) (n : Nat) : RbResult :=
  if cmark_node_get_type t n ≠ cmark_node_type.LIST then
    (Except.error (RbErr.NodeError "cannot get list_tight for non-list"), t)
  else (Except.ok (RbValue.bool (cmark_node_get_list_tight t n)), t)

/-- Translation of `rb_node_set_list_tight` (lines 654-666). -/
def rb_node_set_list_tight (t : NodeStore) (n : Nat) (b : Bool) : RbResult :=
  match cmark_node_set_list_tight t n b with
  | (false, t1) => (Except.error (RbErr.NodeError "could not set list_tight"), t1)
  | (true, t1) => (Except.ok RbValue.nil, t1)

/-- Translation of `rb_node_get_fence_info` (lines 672-685). -/
def rb_node_get_fence_info (t : NodeStore) (n : Nat) : RbResult :=
  match cmark_node_get_fence_info t n with
  | none => (Except.error (RbErr.NodeError "could not get fence_info"), t)
  | some s => (Except.ok (RbValue.str s), t)

/-- Translation of `rb_node_set_fence_info` (lines 692-704). -/
def rb_node_set_fence_info (t : NodeStore) (n : Nat) (s : String) : RbResult :=
  match cmark_node_set_fence_info t n s with
  | (false, t1) => (Except.error (RbErr.NodeError "could not set fence_info"), t1)
  | (true, t1) => (Except.ok RbValue.nil, t1)

/-! ## Parse and render pipeline (external collaborators) -/

/-- The external collaborators of §4.4 and §4.5: the parser producing a
document of abstract type `Doc` and the HTML renderer, both abstract. -/
structure CmarkExternals (Doc : Type) where
  parse_document : String → Int → Int → Doc
  render_html : Doc → Int → String

/-- Modelled from the spec: `cmark_markdown_to_html`, the library one-shot
helper called by the binding, is not part of the binding source; per §6 the
one-shot convenience is `render_html(parse_document(text, options))` for the
given options. -/
def cmark_markdown_to_html {Doc : Type} (ext : CmarkExternals Doc)
    (text : String) (len : Int) (options : Int) : String :=
  ext.render_html (ext.parse_document text len options) options

/-- Translation of `rb_markdown_to_html` (lines 85-94): length is the byte
length of the string and the options passed to the library helper are 0. -/
def rb_markdown_to_html {Doc : Type} (ext : CmarkExternals Doc)
    (text : String) : RbValue :=
  RbValue.str (cmark_markdown_to_html ext text (Int.ofNat text.utf8ByteSize) 0)

/-- Translation of `rb_parse_document` (lines 122-139): invoke the parser
with the given text, length and options (the parsed document stands for the
wrapped root node the binding returns). -/
def rb_parse_document {Doc : Type} (ext : CmarkExternals Doc)
    (text : String) (len : Int) (options : Int) : Doc :=
  ext.parse_document text len options

/-- Translation of `rb_render_html` (lines 304-315): invoke the renderer on
the node with the given options. -/
def rb_render_html {Doc : Type} (ext : CmarkExternals Doc)
    (d : Doc) (options : Int) : RbValue :=
  RbValue.str (ext.render_html d options)

/-! ## Garbage-collection and ownership model

The Ruby garbage collector is external; its mark-and-sweep discipline is
modelled abstractly.  `Marked` is the least set of nodes whose wrappers the
collector marks, seeded by the externally referenced wrappers and closed
under the propagation implemented by `rb_mark_c_struct` (lines 9-40): the
mark function of a node wrapper marks the parent wrapper and the cached
wrappers of all children.  A wrapper that is not marked is collected during
the sweep; collecting a wrapper whose free function is installed frees the
entire subtree below its node (`rb_free_c_struct`, lines 42-48). -/

/-- `WeakAncestor t a n` holds when `a` lies on the parent chain of `n`,
including `n` itself. -/
inductive WeakAncestor (t : NodeStore) : Nat → Nat → Prop where
  | refl (n : Nat) : WeakAncestor t n n
  | step {a p n : Nat} : WeakAncestor t a p → (t.get n).parent = some p →
      WeakAncestor t a n

/-- The marked set: externally referenced wrappers, closed under the
propagation of `rb_mark_c_struct` — up to the parent wrapper (which the mark
function requires to exist) and down to the cached child wrappers. -/
inductive Marked (t : NodeStore) (live : List Nat) : Nat → Prop where
  | referenced {n : Nat} : n ∈ live → Marked t live n
  | up {n p : Nat} : Marked t live n → (t.get n).parent = some p →
      (t.get p).user_data = true → Marked t live p
  | down {n c : Nat} : Marked t live n → (t.get c).parent = some n →
      (t.get c).user_data = true → Marked t live c

/-- State invariant of the binding (asserted by the abort in
`rb_mark_c_struct`, lines 19-25): a node with a cached wrapper can only hang
below nodes that also have cached wrappers. -/
def WrappedUpInv (t : NodeStore) : Bool :=
  (List.range t.nodes.length).all fun a =>
    !(t.get a).user_data ||
      (match (t.get a).parent with
       | none => true
       | some p => (t.get p).user_data)

/-- State invariant of the binding (established by `rb_node_to_value` and
maintained by `rb_parent_added` / `rb_parent_removed`): a wrapper free
function is installed only on tree roots. -/
def DfreeRootInv (t : NodeStore) : Bool :=
  (List.range t.nodes.length).all fun a =>
    !(t.get a).dfree || decide ((t.get a).parent = none)

/-- A node is destroyed by a sweep when some node above it (or itself) has a
wrapper that is unmarked and carries an installed free function: collecting
that wrapper frees the whole subtree. -/
def DestroyedBySweep (t : NodeStore) (live : List Nat) (n : Nat) : Prop :=
  ∃ r, (t.get r).user_data = true ∧ (t.get r).dfree = true ∧
    ¬ Marked t live r ∧ WeakAncestor t r n

theorem WeakAncestor.trans {t : NodeStore} {a b c : Nat}
    (h1 : WeakAncestor t a b) (h2 : WeakAncestor t b c) : WeakAncestor t a c := by
  induction h2 with
  | refl => exact h1
  | step h hp ih => exact WeakAncestor.step ih hp

/-- Any two weak ancestors of a node are comparable: the parent chain is
linear. -/
theorem weakAncestor_comparable {t : NodeStore} {b n : Nat}
    (hb : WeakAncestor t b n) :
    ∀ a : Nat, WeakAncestor t a n → WeakAncestor t a b ∨ WeakAncestor t b a := by
  induction hb with
  | refl =>
    intro a ha
    exact Or.inl ha
  | step hbp hp ih =>
    intro a ha
    cases ha with
    | refl => exact Or.inr (WeakAncestor.step hbp hp)
    | step hap hp2 =>
      rw [hp] at hp2
      injection hp2 with he
      rw [← he] at hap
      exact ih a hap

/-- A weak ancestor of a parentless node is the node itself. -/
theorem weakAncestor_of_root {t : NodeStore} {a r : Nat}
    (h : WeakAncestor t a r) (hr : (t.get r).parent = none) : a = r := by
  cases h with
  | refl => rfl
  | step hap hp => rw [hr] at hp; cases hp

theorem wrappedUpInv_elim {t : NodeStore} (hinv : WrappedUpInv t = true)
    {a p : Nat} (hu : (t.get a).user_data = true)
    (hp : (t.get a).parent = some p) : (t.get p).user_data = true := by
  have ha : a < t.nodes.length := by
    by_contra hge
    rw [NodeStore.get_ge t a (Nat.le_of_not_lt hge)] at hu
    simp [defaultNode] at hu
  have := List.all_eq_true.mp hinv a (List.mem_range.mpr ha)
  rw [hu, hp] at this
  simpa using this

theorem dfreeRootInv_elim {t : NodeStore} (hinv : DfreeRootInv t = true)
    {a : Nat} (hd : (t.get a).dfree = true) : (t.get a).parent = none := by
  have ha : a < t.nodes.length := by
    by_contra hge
    rw [NodeStore.get_ge t a (Nat.le_of_not_lt hge)] at hd
    simp [defaultNode] at hd
  have := List.all_eq_true.mp hinv a (List.mem_range.mpr ha)
  rw [hd] at this
  simpa using this

/-- Marking propagates from a marked wrapped node to every weak ancestor:
each wrapper on the chain marks its parent wrapper. -/
theorem marked_of_weakAncestor {t : NodeStore} {live : List Nat} {a x : Nat}
    (hinv : WrappedUpInv t = true) (h : WeakAncestor t a x) :
    Marked t live x → (t.get x).user_data = true →
    Marked t live a ∧ (t.get a).user_data = true := by
  induction h with
  | refl =>
    intro hm hw
    exact ⟨hm, hw⟩
  | step hap hp ih =>
    intro hm hw
    have hpw := wrappedUpInv_elim hinv hw hp
    exact ih (Marked.up hm hp hpw) hpw

/-! ## Sample stores used by the concrete witnesses -/

/-- A small well-formed store: a document root (0, wrapped, eagerly
destructible) with one paragraph child (1, wrapped), a fresh unwrapped
document root (2), and a bullet list root (3). -/
def storeA : NodeStore :=
  NodeStore.mk
    [ { type := cmark_node_type.DOCUMENT, first_child := some 1,
        last_child := some 1, user_data := true, dfree := true },
      { type := cmark_node_type.PARAGRAPH, parent := some 0,
        user_data := true },
      { type := cmark_node_type.DOCUMENT },
      { type := cmark_node_type.LIST,
        list_type := cmark_list_type.BULLET_LIST } ]

/-- Helper: the value returned for an existing node is that node. -/
theorem rb_node_to_value_some (t : NodeStore) (c : Nat) :
    (rb_node_to_value t (some c)).1 = RbValue.node c := by
  simp only [rb_node_to_value]
  split <;> rfl

/-- C6: the one-shot convenience function equals parsing with default
options (0) followed by rendering to HTML with default options, for every
input text and every external parser/renderer pair. -/
theorem markdown_to_html_is_render_of_parse {Doc : Type}
    (ext : CmarkExternals Doc) (text : String) :
    rb_markdown_to_html ext text =
      rb_render_html ext
        (rb_parse_document ext text (Int.ofNat text.utf8ByteSize) 0) 0 := rfl

/-- C10: the type operation is total over the underlying kind: each of the
18 supported kinds maps to its fixed symbol (`document`, `blockquote`,
`list`, `list_item`, `code_block`, `html`, `paragraph`, `header`, `hrule`,
`text`, `softbreak`, `linebreak`, `code`, `inline_html`, `emph`, `strong`,
`link`, `image`) and any other kind value raises `NodeError` instead of
returning a value. -/
theorem rb_node_get_type_total (t : NodeStore) (n : Nat) :
    ((t.get n).type = cmark_node_type.DOCUMENT →
      rb_node_get_type t n = (Except.ok (RbValue.sym "document"), t))
  ∧ ((t.get n).type = cmark_node_type.BLOCK_QUOTE →
      rb_node_get_type t n = (Except.ok (RbValue.sym "blockquote"), t))
  ∧ ((t.get n).type = cmark_node_type.LIST →
      rb_node_get_type t n = (Except.ok (RbValue.sym "list"), t))
  ∧ ((t.get n).type = cmark_node_type.ITEM →
      rb_node_get_type t n = (Except.ok (RbValue.sym "list_item"), t))
  ∧ ((t.get n).type = cmark_node_type.CODE_BLOCK →
      rb_node_get_type t n = (Except.ok (RbValue.sym "code_block"), t))
  ∧ ((t.get n).type = cmark_node_type.HTML →
      rb_node_get_type t n = (Except.ok (RbValue.sym "html"), t))
  ∧ ((t.get n).type = cmark_node_type.PARAGRAPH →
      rb_node_get_type t n = (Except.ok (RbValue.sym "paragraph"), t))
  ∧ ((t.get n).type = cmark_node_type.HEADER →
      rb_node_get_type t n = (Except.ok (RbValue.sym "header"), t))
  ∧ ((t.get n).type = cmark_node_type.HRULE →
      rb_node_get_type t n = (Except.ok (RbValue.sym "hrule"), t))
  ∧ ((t.get n).type = cmark_node_type.TEXT →
      rb_node_get_type t n = (Except.ok (RbValue.sym "text"), t))
  ∧ ((t.get n).type = cmark_node_type.SOFTBREAK →
      rb_node_get_type t n = (Except.ok (RbValue.sym "softbreak"), t))
  ∧ ((t.get n).type = cmark_node_type.LINEBREAK →
      rb_node_get_type t n = (Except.ok (RbValue.sym "linebreak"), t))
  ∧ ((t.get n).type = cmark_node_type.CODE →
      rb_node_get_type t n = (Except.ok (RbValue.sym "code"), t))
  ∧ ((t.get n).type = cmark_node_type.INLINE_HTML →
      rb_node_get_type t n = (Except.ok (RbValue.sym "inline_html"), t))
  ∧ ((t.get n).type = cmark_node_type.EMPH →
      rb_node_get_type t n = (Except.ok (RbValue.sym "emph"), t))
  ∧ ((t.get n).type = cmark_node_type.STRONG →
      rb_node_get_type t n = (Except.ok (RbValue.sym "strong"), t))
  ∧ ((t.get n).type = cmark_node_type.LINK →
      rb_node_get_type t n = (Except.ok (RbValue.sym "link"), t))
  ∧ ((t.get n).type = cmark_node_type.IMAGE →
      rb_node_get_type t n = (Except.ok (RbValue.sym "image"), t))
  ∧ ((t.get n).type = cmark_node_type.NONE →
      rb_node_get_type t n =
        (Except.error (RbErr.NodeError "invalid node type"), t)) := by
  refine ⟨?_, ?_, ?_, ?_, ?_, ?_, ?_, ?_, ?_, ?_, ?_, ?_, ?_, ?_, ?_, ?_,
    ?_, ?_, ?_⟩ <;>
    intro h <;> simp [rb_node_get_type, cmark_node_get_type, h]

/-- Witness for C10: the document root of the sample store yields the
symbol `document`. -/
theorem rb_node_get_type_total_witness :
    rb_node_get_type storeA 0 = (Except.ok (RbValue.sym "document"), storeA) :=
  (rb_node_get_type_total storeA 0).1 (by decide)

/-- C1: when `b` is an ancestor of `a`, appending (or prepending) `b` as a
child of `a` raises `NodeError` and leaves the whole store — in particular
both subtrees — unchanged: no cycle is ever created. -/
theorem append_child_ancestor_fails (t : NodeStore) (a b : Nat)
    (hanc : is_ancestor t b a = true) :
    rb_node_append_child t a b =
      (Except.error (RbErr.NodeError "could not append child"), t)
    ∧ rb_node_prepend_child t a b =
      (Except.error (RbErr.NodeError "could not prepend child"), t) := by
  constructor
  · simp [rb_node_append_child, cmark_node_append_child, hanc]
  · simp [rb_node_prepend_child, cmark_node_prepend_child, hanc]

/-- Witness for C1: node 0 is an ancestor of node 1 in the sample store, so
appending it to node 1 fails and leaves the store unchanged. -/
theorem append_child_ancestor_fails_witness :
    rb_node_append_child storeA 1 0 =
      (Except.error (RbErr.NodeError "could not append child"), storeA) :=
  (append_child_ancestor_fails storeA 1 0 (by decide)).1

/-- C2: reading or writing `list_start` raises unless the node is a list of
ordered type; in particular on a bullet list or a non-list node both raise
and leave the node unchanged rather than silently succeeding. -/
theorem list_start_requires_ordered_list (t : NodeStore) (n : Nat) (v : Int)
    (h : ¬((t.get n).type = cmark_node_type.LIST ∧
           (t.get n).list_type = cmark_list_type.ORDERED_LIST)) :
    raised (rb_node_get_list_start t n) = true
    ∧ (rb_node_get_list_start t n).2 = t
    ∧ raised (rb_node_set_list_start t n v) = true
    ∧ (rb_node_set_list_start t n v).2 = t := by
  have hcond : cmark_node_get_type t n ≠ cmark_node_type.LIST ∨
      cmark_node_get_list_type t n ≠ cmark_list_type.ORDERED_LIST := by
    by_cases ht : (t.get n).type = cmark_node_type.LIST
    · right
      simp only [cmark_node_get_list_type, ht]
      exact fun hlt => h ⟨ht, hlt⟩
    · left
      simpa [cmark_node_get_type] using ht
  have hset : cmark_node_set_list_start t n v = (false, t) := by
    unfold cmark_node_set_list_start
    rw [if_neg h]
  refine ⟨?_, ?_, ?_, ?_⟩
  · simp [rb_node_get_list_start, hcond, raised]
  · simp [rb_node_get_list_start, hcond]
  · simp [rb_node_set_list_start, hset, raised]
  · simp [rb_node_set_list_start, hset]

/-- Witness for C2: node 3 of the sample store is a bullet list, so reading
and writing `list_start` on it raises. -/
theorem list_start_requires_ordered_list_witness :
    raised (rb_node_get_list_start storeA 3) = true
    ∧ raised (rb_node_set_list_start storeA 3 7) = true := by
  have h := list_start_requires_ordered_list storeA 3 7 (by decide)
  exact ⟨h.1, h.2.2.1⟩

/-- C9: every navigation operation (first child, last child, parent, next,
previous) never raises: when the requested neighbor exists it returns that
node, and otherwise it returns nil. -/
theorem navigation_never_fails (t : NodeStore) (n : Nat) :
    (raised (rb_node_first_child t n) = false
      ∧ (cmark_node_first_child t n = none →
          (rb_node_first_child t n).1 = Except.ok RbValue.nil)
      ∧ (∀ c, cmark_node_first_child t n = some c →
          (rb_node_first_child t n).1 = Except.ok (RbValue.node c)))
  ∧ (raised (rb_node_last_child t n) = false
      ∧ (cmark_node_last_child t n = none →
          (rb_node_last_child t n).1 = Except.ok RbValue.nil)
      ∧ (∀ c, cmark_node_last_child t n = some c →
          (rb_node_last_child t n).1 = Except.ok (RbValue.node c)))
  ∧ (raised (rb_node_parent t n) = false
      ∧ (cmark_node_parent t n = none →
          (rb_node_parent t n).1 = Except.ok RbValue.nil)
      ∧ (∀ c, cmark_node_parent t n = some c →
          (rb_node_parent t n).1 = Except.ok (RbValue.node c)))
  ∧ (raised (rb_node_next t n) = false
      ∧ (cmark_node_next t n = none →
          (rb_node_next t n).1 = Except.ok RbValue.nil)
      ∧ (∀ c, cmark_node_next t n = some c →
          (rb_node_next t n).1 = Except.ok (RbValue.node c)))
  ∧ (raised (rb_node_previous t n) = false
      ∧ (cmark_node_previous t n = none →
          (rb_node_previous t n).1 = Except.ok RbValue.nil)
      ∧ (∀ c, cmark_node_previous t n = some c →
          (rb_node_previous t n).1 = Except.ok (RbValue.node c))) := by
  refine ⟨⟨?_, ?_, ?_⟩, ⟨?_, ?_, ?_⟩, ⟨?_, ?_, ?_⟩, ⟨?_, ?_, ?_⟩,
    ⟨?_, ?_, ?_⟩⟩
  · simp [raised, rb_node_first_child]
  · intro h
    simp [rb_node_first_child, h, rb_node_to_value]
  · intro c h
    simp [rb_node_first_child, h, rb_node_to_value_some]
  · simp [raised, rb_node_last_child]
  · intro h
    simp [rb_node_last_child, h, rb_node_to_value]
  · intro c h
    simp [rb_node_last_child, h, rb_node_to_value_some]
  · simp [raised, rb_node_parent]
  · intro h
    simp [rb_node_parent, h, rb_node_to_value]
  · intro c h
    simp [rb_node_parent, h, rb_node_to_value_some]
  · simp [raised, rb_node_next]
  · intro h
    simp [rb_node_next, h, rb_node_to_value]
  · intro c h
    simp [rb_node_next, h, rb_node_to_value_some]
  · simp [raised, rb_node_previous]
  · intro h
    simp [rb_node_previous, h, rb_node_to_value]
  · intro c h
    simp [rb_node_previous, h, rb_node_to_value_some]

/-- Witness for C9: on the sample store, the first child of the root is
node 1 and the parent of the root is nil, with no error raised. -/
theorem navigation_never_fails_witness :
    (rb_node_first_child storeA 0).1 = Except.ok (RbValue.node 1)
    ∧ (rb_node_parent storeA 0).1 = Except.ok RbValue.nil := by
  have h := navigation_never_fails storeA 0
  exact ⟨h.1.2.2 1 (by decide), h.2.2.1.2.1 (by decide)⟩

/-! ## Failing setters preserve the store -/

theorem cmark_node_set_literal_fail (t : NodeStore) (n : Nat) (s : String)
    (h : (cmark_node_set_literal t n s).1 = false) :
    (cmark_node_set_literal t n s).2 = t := by
  by_cases hc : literalKind (t.get n).type = true
  · simp [cmark_node_set_literal, hc] at h
  · simp [cmark_node_set_literal, hc]

theorem cmark_node_set_url_fail (t : NodeStore) (n : Nat) (s : String)
    (h : (cmark_node_set_url t n s).1 = false) :
    (cmark_node_set_url t n s).2 = t := by
  cases hty : (t.get n).type <;> simp_all [cmark_node_set_url]

theorem cmark_node_set_title_fail (t : NodeStore) (n : Nat) (s : String)
    (h : (cmark_node_set_title t n s).1 = false) :
    (cmark_node_set_title t n s).2 = t := by
  cases hty : (t.get n).type <;> simp_all [cmark_node_set_title]

theorem cmark_node_set_header_level_fail (t : NodeStore) (n : Nat) (l : Int)
    (h : (cmark_node_set_header_level t n l).1 = false) :
    (cmark_node_set_header_level t n l).2 = t := by
  by_cases hc : (t.get n).type = cmark_node_type.HEADER ∧ 1 ≤ l ∧ l ≤ 6
  · simp [cmark_node_set_header_level, hc] at h
  · simp [cmark_node_set_header_level, hc]

theorem cmark_node_set_list_type_fail (t : NodeStore) (n : Nat)
    (lt : cmark_list_type)
    (h : (cmark_node_set_list_type t n lt).1 = false) :
    (cmark_node_set_list_type t n lt).2 = t := by
  by_cases hc : (t.get n).type = cmark_node_type.LIST ∧ (lt = cmark_list_type.BULLET_LIST ∨ lt = cmark_list_type.ORDERED_LIST)
  · simp [cmark_node_set_list_type, hc] at h
  · simp [cmark_node_set_list_type, hc]

theorem cmark_node_set_list_start_fail (t : NodeStore) (n : Nat) (s : Int)
    (h : (cmark_node_set_list_start t n s).1 = false) :
    (cmark_node_set_list_start t n s).2 = t := by
  by_cases hc : (t.get n).type = cmark_node_type.LIST ∧ (t.get n).list_type = cmark_list_type.ORDERED_LIST
  · simp [cmark_node_set_list_start, hc] at h
  · simp [cmark_node_set_list_start, hc]

theorem cmark_node_set_list_tight_fail (t : NodeStore) (n : Nat) (b : Bool)
    (h : (cmark_node_set_list_tight t n b).1 = false) :
    (cmark_node_set_list_tight t n b).2 = t := by
  by_cases hc : (t.get n).type = cmark_node_type.LIST
  · simp [cmark_node_set_list_tight, hc] at h
  · simp [cmark_node_set_list_tight, hc]

theorem cmark_node_set_fence_info_fail (t : NodeStore) (n : Nat) (s : String)
    (h : (cmark_node_set_fence_info t n s).1 = false) :
    (cmark_node_set_fence_info t n s).2 = t := by
  cases hty : (t.get n).type <;> simp_all [cmark_node_set_fence_info]

/-- C5: every payload setter that fails does so atomically: whenever a
setter raises, the post-call store equals the pre-call store (no incremental
mutation). -/
theorem setters_atomic_on_failure (t : NodeStore) (n : Nat)
    (s u ti fi : String) (l v : Int) (lt : cmark_list_type) (b : Bool) :
    (raised (rb_node_set_string_content t n s) = true →
      (rb_node_set_string_content t n s).2 = t)
  ∧ (raised (rb_node_set_url t n u) = true → (rb_node_set_url t n u).2 = t)
  ∧ (raised (rb_node_set_title t n ti) = true →
      (rb_node_set_title t n ti).2 = t)
  ∧ (raised (rb_node_set_header_level t n l) = true →
      (rb_node_set_header_level t n l).2 = t)
  ∧ (raised (rb_node_set_list_type t n lt) = true →
      (rb_node_set_list_type t n lt).2 = t)
  ∧ (raised (rb_node_set_list_start t n v) = true →
      (rb_node_set_list_start t n v).2 = t)
  ∧ (raised (rb_node_set_list_tight t n b) = true →
      (rb_node_set_list_tight t n b).2 = t)
  ∧ (raised (rb_node_set_fence_info t n fi) = true →
      (rb_node_set_fence_info t n fi).2 = t) := by
  refine ⟨?_, ?_, ?_, ?_, ?_, ?_, ?_, ?_⟩
  · intro hr
    rcases hC : cmark_node_set_literal t n s with ⟨ok, t1⟩
    cases ok
    · have h2 := cmark_node_set_literal_fail t n s (by rw [hC])
      rw [hC] at h2
      simp [rb_node_set_string_content, hC, h2]
    · simp [raised, rb_node_set_string_content, hC] at hr
  · intro hr
    rcases hC : cmark_node_set_url t n u with ⟨ok, t1⟩
    cases ok
    · have h2 := cmark_node_set_url_fail t n u (by rw [hC])
      rw [hC] at h2
      simp [rb_node_set_url, hC, h2]
    · simp [raised, rb_node_set_url, hC] at hr
  · intro hr
    rcases hC : cmark_node_set_title t n ti with ⟨ok, t1⟩
    cases ok
    · have h2 := cmark_node_set_title_fail t n ti (by rw [hC])
      rw [hC] at h2
      simp [rb_node_set_title, hC, h2]
    · simp [raised, rb_node_set_title, hC] at hr
  · intro hr
    rcases hC : cmark_node_set_header_level t n l with ⟨ok, t1⟩
    cases ok
    · have h2 := cmark_node_set_header_level_fail t n l (by rw [hC])
      rw [hC] at h2
      simp [rb_node_set_header_level, hC, h2]
    · simp [raised, rb_node_set_header_level, hC] at hr
  · intro hr
    rcases hC : cmark_node_set_list_type t n lt with ⟨ok, t1⟩
    cases ok
    · have h2 := cmark_node_set_list_type_fail t n lt (by rw [hC])
      rw [hC] at h2
      simp [rb_node_set_list_type, hC, h2]
    · simp [raised, rb_node_set_list_type, hC] at hr
  · intro hr
    rcases hC : cmark_node_set_list_start t n v with ⟨ok, t1⟩
    cases ok
    · have h2 := cmark_node_set_list_start_fail t n v (by rw [hC])
      rw [hC] at h2
      simp [rb_node_set_list_start, hC, h2]
    · simp [raised, rb_node_set_list_start, hC] at hr
  · intro hr
    rcases hC : cmark_node_set_list_tight t n b with ⟨ok, t1⟩
    cases ok
    · have h2 := cmark_node_set_list_tight_fail t n b (by rw [hC])
      rw [hC] at h2
      simp [rb_node_set_list_tight, hC, h2]
    · simp [raised, rb_node_set_list_tight, hC] at hr
  · intro hr
    rcases hC : cmark_node_set_fence_info t n fi with ⟨ok, t1⟩
    cases ok
    · have h2 := cmark_node_set_fence_info_fail t n fi (by rw [hC])
      rw [hC] at h2
      simp [rb_node_set_fence_info, hC, h2]
    · simp [raised, rb_node_set_fence_info, hC] at hr

/-- Witness for C5: on the sample store, setting a URL on the document
root and an out-of-range header level both fail and leave the store
unchanged. -/
theorem setters_atomic_on_failure_witness :
    (rb_node_set_url storeA 0 "u").2 = storeA
    ∧ (rb_node_set_header_level storeA 0 9).2 = storeA := by
  have h := setters_atomic_on_failure storeA 0 "s" "u" "t" "f" 9 7
    cmark_list_type.BULLET_LIST true
  exact ⟨h.2.1 (by decide), h.2.2.2.1 (by decide)⟩

/-! ## Mismatched kinds make accessors fail -/

theorem cmark_node_get_literal_mismatch (t : NodeStore) (n : Nat)
    (h : literalKind (t.get n).type = false) :
    cmark_node_get_literal t n = none := by
  simp [cmark_node_get_literal, h]

theorem cmark_node_set_literal_mismatch (t : NodeStore) (n : Nat) (s : String)
    (h : literalKind (t.get n).type = false) :
    cmark_node_set_literal t n s = (false, t) := by
  simp [cmark_node_set_literal, h]

theorem cmark_node_get_url_mismatch (t : NodeStore) (n : Nat)
    (h1 : (t.get n).type ≠ cmark_node_type.LINK)
    (h2 : (t.get n).type ≠ cmark_node_type.IMAGE) :
    cmark_node_get_url t n = none := by
  cases hty : (t.get n).type <;> simp_all [cmark_node_get_url]

theorem cmark_node_set_url_mismatch (t : NodeStore) (n : Nat) (s : String)
    (h1 : (t.get n).type ≠ cmark_node_type.LINK)
    (h2 : (t.get n).type ≠ cmark_node_type.IMAGE) :
    cmark_node_set_url t n s = (false, t) := by
  cases hty : (t.get n).type <;> simp_all [cmark_node_set_url]

theorem cmark_node_get_title_mismatch (t : NodeStore) (n : Nat)
    (h1 : (t.get n).type ≠ cmark_node_type.LINK)
    (h2 : (t.get n).type ≠ cmark_node_type.IMAGE) :
    cmark_node_get_title t n = none := by
  cases hty : (t.get n).type <;> simp_all [cmark_node_get_title]

theorem cmark_node_set_title_mismatch (t : NodeStore) (n : Nat) (s : String)
    (h1 : (t.get n).type ≠ cmark_node_type.LINK)
    (h2 : (t.get n).type ≠ cmark_node_type.IMAGE) :
    cmark_node_set_title t n s = (false, t) := by
  cases hty : (t.get n).type <;> simp_all [cmark_node_set_title]

theorem cmark_node_get_header_level_mismatch (t : NodeStore) (n : Nat)
    (h : (t.get n).type ≠ cmark_node_type.HEADER) :
    cmark_node_get_header_level t n = 0 := by
  cases hty : (t.get n).type <;> simp_all [cmark_node_get_header_level]

theorem cmark_node_set_header_level_mismatch (t : NodeStore) (n : Nat) (l : Int)
    (h : (t.get n).type ≠ cmark_node_type.HEADER) :
    cmark_node_set_header_level t n l = (false, t) := by
  simp [cmark_node_set_header_level, h]

theorem cmark_node_get_list_type_mismatch (t : NodeStore) (n : Nat)
    (h : (t.get n).type ≠ cmark_node_type.LIST) :
    cmark_node_get_list_type t n = cmark_list_type.NO_LIST := by
  cases hty : (t.get n).type <;> simp_all [cmark_node_get_list_type]

theorem cmark_node_set_list_type_mismatch (t : NodeStore) (n : Nat)
    (lt : cmark_list_type) (h : (t.get n).type ≠ cmark_node_type.LIST) :
    cmark_node_set_list_type t n lt = (false, t) := by
  simp [cmark_node_set_list_type, h]

theorem cmark_node_set_list_start_mismatch (t : NodeStore) (n : Nat) (v : Int)
    (h : (t.get n).type ≠ cmark_node_type.LIST) :
    cmark_node_set_list_start t n v = (false, t) := by
  simp [cmark_node_set_list_start, h]

theorem cmark_node_set_list_tight_mismatch (t : NodeStore) (n : Nat) (b : Bool)
    (h : (t.get n).type ≠ cmark_node_type.LIST) :
    cmark_node_set_list_tight t n b = (false, t) := by
  simp [cmark_node_set_list_tight, h]

theorem cmark_node_get_fence_info_mismatch (t : NodeStore) (n : Nat)
    (h : (t.get n).type ≠ cmark_node_type.CODE_BLOCK) :
    cmark_node_get_fence_info t n = none := by
  cases hty : (t.get n).type <;> simp_all [cmark_node_get_fence_info]

theorem cmark_node_set_fence_info_mismatch (t : NodeStore) (n : Nat)
    (s : String) (h : (t.get n).type ≠ cmark_node_type.CODE_BLOCK) :
    cmark_node_set_fence_info t n s = (false, t) := by
  cases hty : (t.get n).type <;> simp_all [cmark_node_set_fence_info]

/-- C4: every kind-specific accessor (getter and setter alike) called on a
node whose kind does not match always raises the documented `NodeError` and
leaves the store unchanged — it never returns a stale or default value and
never silently succeeds. -/
theorem accessors_kind_gated (t : NodeStore) (n : Nat)
    (s u ti fi : String) (l v : Int) (lt : cmark_list_type) (b : Bool) :
    (literalKind (t.get n).type = false →
      rb_node_get_string_content t n =
        (Except.error (RbErr.NodeError "could not get string content"), t)
      ∧ rb_node_set_string_content t n s =
        (Except.error (RbErr.NodeError "could not set string content"), t))
  ∧ ((t.get n).type ≠ cmark_node_type.LINK →
     (t.get n).type ≠ cmark_node_type.IMAGE →
      rb_node_get_url t n =
        (Except.error (RbErr.NodeError "could not get url"), t)
      ∧ rb_node_set_url t n u =
        (Except.error (RbErr.NodeError "could not set url"), t)
      ∧ rb_node_get_title t n =
        (Except.error (RbErr.NodeError "could not get title"), t)
      ∧ rb_node_set_title t n ti =
        (Except.error (RbErr.NodeError "could not set title"), t))
  ∧ ((t.get n).type ≠ cmark_node_type.HEADER →
      rb_node_get_header_level t n =
        (Except.error (RbErr.NodeError "could not get header_level"), t)
      ∧ rb_node_set_header_level t n l =
        (Except.error (RbErr.NodeError "could not set header_level"), t))
  ∧ ((t.get n).type ≠ cmark_node_type.LIST →
      rb_node_get_list_type t n =
        (Except.error (RbErr.NodeError "could not get list_type"), t)
      ∧ rb_node_set_list_type t n lt =
        (Except.error (RbErr.NodeError "could not set list_type"), t)
      ∧ rb_node_get_list_start t n =
        (Except.error
          (RbErr.NodeError "cannot get list_start for non-ordered list"), t)
      ∧ rb_node_set_list_start t n v =
        (Except.error (RbErr.NodeError "could not set list_start"), t)
      ∧ rb_node_get_list_tight t n =
        (Except.error (RbErr.NodeError "cannot get list_tight for non-list"), t)
      ∧ rb_node_set_list_tight t n b =
        (Except.error (RbErr.NodeError "could not set list_tight"), t))
  ∧ ((t.get n).type ≠ cmark_node_type.CODE_BLOCK →
      rb_node_get_fence_info t n =
        (Except.error (RbErr.NodeError "could not get fence_info"), t)
      ∧ rb_node_set_fence_info t n fi =
        (Except.error (RbErr.NodeError "could not set fence_info"), t)) := by
  refine ⟨?_, ?_, ?_, ?_, ?_⟩
  · intro h
    refine ⟨?_, ?_⟩
    · simp [rb_node_get_string_content, cmark_node_get_literal_mismatch t n h]
    · simp [rb_node_set_string_content, cmark_node_set_literal_mismatch t n s h]
  · intro h1 h2
    refine ⟨?_, ?_, ?_, ?_⟩
    · simp [rb_node_get_url, cmark_node_get_url_mismatch t n h1 h2]
    · simp [rb_node_set_url, cmark_node_set_url_mismatch t n u h1 h2]
    · simp [rb_node_get_title, cmark_node_get_title_mismatch t n h1 h2]
    · simp [rb_node_set_title, cmark_node_set_title_mismatch t n ti h1 h2]
  · intro h
    refine ⟨?_, ?_⟩
    · simp [rb_node_get_header_level,
        cmark_node_get_header_level_mismatch t n h]
    · simp [rb_node_set_header_level,
        cmark_node_set_header_level_mismatch t n l h]
  · intro h
    refine ⟨?_, ?_, ?_, ?_, ?_, ?_⟩
    · simp [rb_node_get_list_type, cmark_node_get_list_type_mismatch t n h]
    · simp [rb_node_set_list_type, cmark_node_set_list_type_mismatch t n lt h]
    · have : cmark_node_get_type t n ≠ cmark_node_type.LIST := by
        simpa [cmark_node_get_type] using h
      simp [rb_node_get_list_start, this]
    · simp [rb_node_set_list_start, cmark_node_set_list_start_mismatch t n v h]
    · have : cmark_node_get_type t n ≠ cmark_node_type.LIST := by
        simpa [cmark_node_get_type] using h
      simp [rb_node_get_list_tight, this]
    · simp [rb_node_set_list_tight, cmark_node_set_list_tight_mismatch t n b h]
  · intro h
    refine ⟨?_, ?_⟩
    · simp [rb_node_get_fence_info, cmark_node_get_fence_info_mismatch t n h]
    · simp [rb_node_set_fence_info, cmark_node_set_fence_info_mismatch t n fi h]

/-- Witness for C4: the document root of the sample store matches none of
the kind-specific accessors, so a sample getter and setter of each group
raise and leave the store unchanged. -/
theorem accessors_kind_gated_witness :
    rb_node_get_string_content storeA 0 =
      (Except.error (RbErr.NodeError "could not get string content"), storeA)
    ∧ rb_node_set_url storeA 0 "u" =
      (Except.error (RbErr.NodeError "could not set url"), storeA)
    ∧ rb_node_get_header_level storeA 0 =
      (Except.error (RbErr.NodeError "could not get header_level"), storeA)
    ∧ rb_node_set_list_start storeA 0 3 =
      (Except.error (RbErr.NodeError "could not set list_start"), storeA)
    ∧ rb_node_get_fence_info storeA 0 =
      (Except.error (RbErr.NodeError "could not get fence_info"), storeA) := by
  have h := accessors_kind_gated storeA 0 "s" "u" "t" "f" 2 3
    cmark_list_type.BULLET_LIST true
  exact ⟨(h.1 (by decide)).1, (h.2.1 (by decide) (by decide)).2.1,
    (h.2.2.1 (by decide)).1, (h.2.2.2.1 (by decide)).2.2.2.1,
    (h.2.2.2.2 (by decide)).1⟩

/-! ## Store length is preserved by the topology operations -/

theorem NodeStore.length_modify (t : NodeStore) (n : Nat)
    (f : cmark_node → cmark_node) :
    (t.modify n f).nodes.length = t.nodes.length := by
  simp [NodeStore.modify, NodeStore.length_set]

theorem length_S_node_unlink (t : NodeStore) (n : Nat) :
    (S_node_unlink t n).nodes.length = t.nodes.length := by
  unfold S_node_unlink
  cases hOP : (t.get n).prev <;> cases hON : (t.get n).next <;>
    cases hP : (t.get n).parent <;>
      simp only [hOP, hON, hP, NodeStore.length_modify] <;>
        (repeat' split) <;> simp [NodeStore.length_modify]

theorem length_cmark_node_unlink (t : NodeStore) (n : Nat) :
    (cmark_node_unlink t n).nodes.length = t.nodes.length := by
  unfold cmark_node_unlink
  simp [NodeStore.length_modify, length_S_node_unlink]

theorem length_cmark_node_append_child (t : NodeStore) (a b : Nat) :
    (cmark_node_append_child t a b).2.nodes.length = t.nodes.length := by
  unfold cmark_node_append_child
  split
  · rfl
  · dsimp only
    split <;> simp [NodeStore.length_modify, length_cmark_node_unlink]

/-- C3: ownership and liveness. (1) Wrapping a node installs the eager free
function exactly when the node is a tree root. (2) A successful append
transfers destruction responsibility upward: the attached child wrapper
loses its free function. (3) While a live external reference points at a
wrapped node `x`, no node on the path from `x` to its root and no node
below `x` is destroyed by a sweep: marking propagates up the parent chain,
so the only wrapper whose collection could free such a node stays marked. -/
theorem ownership_liveness (t : NodeStore) (live : List Nat) (x n i a b : Nat)
    (hi : i < t.nodes.length) (hfresh : (t.get i).user_data = false)
    (hb : b < t.nodes.length)
    (hwrap : WrappedUpInv t = true) (hdfree : DfreeRootInv t = true)
    (hxw : (t.get x).user_data = true) (hlive : x ∈ live)
    (hrel : WeakAncestor t n x ∨ WeakAncestor t x n) :
    ((rb_node_to_value t (some i)).2.get i).dfree =
      decide ((t.get i).parent = none)
    ∧ ((rb_node_append_child t a b).1 = Except.ok RbValue.nil →
        ((rb_node_append_child t a b).2.get b).dfree = false)
    ∧ ¬ DestroyedBySweep t live n := by
  refine ⟨?_, ?_, ?_⟩
  · simp only [rb_node_to_value, hfresh]
    rw [if_neg (by simp [hfresh])]
    simp [NodeStore.modify, NodeStore.get_set_self _ i _ hi]
  · intro hok
    rcases hC : cmark_node_append_child t a b with ⟨ok, t1⟩
    cases ok
    · rw [rb_node_append_child] at hok
      rw [hC] at hok
      simp at hok
    · have hlen : t1.nodes.length = t.nodes.length := by
        have hl := length_cmark_node_append_child t a b
        rw [hC] at hl
        exact hl
      simp only [rb_node_append_child]
      rw [hC]
      simp only [rb_parent_added, NodeStore.modify]
      rw [NodeStore.get_set_self _ b _ (by rw [hlen]; exact hb)]
  · rintro ⟨r, hrw, hrd, hrm, hra⟩
    have hmx : Marked t live x := Marked.referenced hlive
    rcases hrel with hnx | hxn
    · have hrx : WeakAncestor t r x := hra.trans hnx
      exact hrm (marked_of_weakAncestor hwrap hrx hmx hxw).1
    · have hroot : (t.get r).parent = none := dfreeRootInv_elim hdfree hrd
      rcases weakAncestor_comparable hxn r hra with hrx2 | hxr
      · exact hrm (marked_of_weakAncestor hwrap hrx2 hmx hxw).1
      · have hxe : x = r := weakAncestor_of_root hxr hroot
        rw [← hxe] at hrm
        exact hrm hmx

/-- Witness for C3: in the sample store, wrapping the fresh root 2 installs
its free function, and no node on the path from the externally referenced
node 1 up to its root 0 is destroyed by a sweep. -/
theorem ownership_liveness_witness :
    ((rb_node_to_value storeA (some 2)).2.get 2).dfree =
      decide ((storeA.get 2).parent = none)
    ∧ ¬ DestroyedBySweep storeA [1] 0 := by
  have h := ownership_liveness storeA [1] 1 0 2 0 1 (by decide) (by decide)
    (by decide) (by decide) (by decide) (by decide) (by decide)
    (Or.inl (WeakAncestor.step (WeakAncestor.refl 0) (by decide)))
  exact ⟨h.1, h.2.2⟩

/-! ## Unlink -/

theorem clear_links_self (x : cmark_node) (h1 : x.parent = none)
    (h2 : x.prev = none) (h3 : x.next = none) :
    { x with parent := none, prev := none, next := none } = x := by
  cases x
  simp_all

theorem set_dfree_self (x : cmark_node) (h : x.dfree = true) :
    { x with dfree := true } = x := by
  cases x
  simp_all

/-- C7: unlinking a node with a parent removes it from the parent/sibling
chain — repairing the parent first/last-child links and the neighbor
next/previous links — and makes it a root that owns itself (its wrapper
free function is installed); unlinking a node that is already a root is a
no-op. -/
theorem unlink_correct (t : NodeStore) (n p m : Nat)
    (hn : n < t.nodes.length)
    (hp : (t.get n).parent = some p)
    (hplt : p < t.nodes.length)
    (hpn : p ≠ n)
    (hprev : ∀ a, (t.get n).prev = some a →
      a < t.nodes.length ∧ a ≠ n ∧ a ≠ p ∧ (t.get n).next ≠ some a)
    (hnext : ∀ b, (t.get n).next = some b →
      b < t.nodes.length ∧ b ≠ n ∧ b ≠ p)
    (hm : (t.get m).parent = none)
    (hmprev : (t.get m).prev = none)
    (hmnext : (t.get m).next = none)
    (hmd : (t.get m).dfree = true) :
    ((rb_node_unlink t n).1 = Except.ok RbValue.nil
      ∧ ((rb_node_unlink t n).2.get n).parent = none
      ∧ ((rb_node_unlink t n).2.get n).prev = none
      ∧ ((rb_node_unlink t n).2.get n).next = none
      ∧ ((rb_node_unlink t n).2.get n).dfree = true
      ∧ (∀ a, (t.get n).prev = some a →
          ((rb_node_unlink t n).2.get a).next = (t.get n).next)
      ∧ (∀ b, (t.get n).next = some b →
          ((rb_node_unlink t n).2.get b).prev = (t.get n).prev)
      ∧ ((t.get p).first_child = some n →
          ((rb_node_unlink t n).2.get p).first_child = (t.get n).next)
      ∧ ((t.get p).last_child = some n →
          ((rb_node_unlink t n).2.get p).last_child = (t.get n).prev))
    ∧ rb_node_unlink t m = (Except.ok RbValue.nil, t) := by
  have hB : rb_node_unlink t m = (Except.ok RbValue.nil, t) := by
    have hSB : S_node_unlink t m = t := by
      unfold S_node_unlink
      simp only [hmprev, hmnext, hm]
    have hCB : cmark_node_unlink t m = t := by
      unfold cmark_node_unlink
      rw [hSB]
      simp only [NodeStore.modify]
      rw [clear_links_self (t.get m) hm hmprev hmnext, NodeStore.set_get_self]
    unfold rb_node_unlink rb_parent_removed
    rw [hCB]
    simp only [NodeStore.modify]
    rw [set_dfree_self (t.get m) hmd, NodeStore.set_get_self]
  refine ⟨⟨rfl, ?_⟩, hB⟩
  have hnp : n ≠ p := Ne.symm hpn
  cases hOP : (t.get n).prev with
  | none =>
    cases hON : (t.get n).next with
    | none =>
      by_cases hFC : (t.get p).first_child = some n <;>
      by_cases hLC : (t.get p).last_child = some n <;>
        simp [rb_node_unlink, rb_parent_removed, cmark_node_unlink,
          S_node_unlink, NodeStore.modify, hOP, hON, hp, hFC, hLC,
          NodeStore.get_set_self, NodeStore.get_set_ne, NodeStore.length_set,
          hn, hplt, hpn, hnp]
    | some b =>
      obtain ⟨hb1, hb2, hb3⟩ := hnext b hON
      have hb2s : n ≠ b := Ne.symm hb2
      have hb3s : p ≠ b := Ne.symm hb3
      by_cases hFC : (t.get p).first_child = some n <;>
      by_cases hLC : (t.get p).last_child = some n <;>
        simp [rb_node_unlink, rb_parent_removed, cmark_node_unlink,
          S_node_unlink, NodeStore.modify, hOP, hON, hp, hFC, hLC,
          NodeStore.get_set_self, NodeStore.get_set_ne, NodeStore.length_set,
          hn, hplt, hpn, hnp, hb1, hb2, hb3, hb2s, hb3s]
  | some a =>
    obtain ⟨ha1, ha2, ha3, ha4⟩ := hprev a hOP
    have ha2s : n ≠ a := Ne.symm ha2
    have ha3s : p ≠ a := Ne.symm ha3
    cases hON : (t.get n).next with
    | none =>
      by_cases hFC : (t.get p).first_child = some n <;>
      by_cases hLC : (t.get p).last_child = some n <;>
        simp [rb_node_unlink, rb_parent_removed, cmark_node_unlink,
          S_node_unlink, NodeStore.modify, hOP, hON, hp, hFC, hLC,
          NodeStore.get_set_self, NodeStore.get_set_ne, NodeStore.length_set,
          hn, hplt, hpn, hnp, ha1, ha2, ha3, ha2s, ha3s]
    | some b =>
      obtain ⟨hb1, hb2, hb3⟩ := hnext b hON
      have hb2s : n ≠ b := Ne.symm hb2
      have hb3s : p ≠ b := Ne.symm hb3
      have hba : b ≠ a := by
        intro he
        rw [hON] at ha4
        exact ha4 (by rw [he])
      have hab : a ≠ b := Ne.symm hba
      by_cases hFC : (t.get p).first_child = some n <;>
      by_cases hLC : (t.get p).last_child = some n <;>
        simp [rb_node_unlink, rb_parent_removed, cmark_node_unlink,
          S_node_unlink, NodeStore.modify, hOP, hON, hp, hFC, hLC,
          NodeStore.get_set_self, NodeStore.get_set_ne, NodeStore.length_set,
          hn, hplt, hpn, hnp, ha1, ha2, ha3, ha2s, ha3s, hb1, hb2, hb3,
          hb2s, hb3s, hba, hab]

/-- Sample store for unlinking: a root (0) with three paragraph children
1 - 2 - 3, and a lone root (4). -/
def storeB : NodeStore :=
  NodeStore.mk
    [ { type := cmark_node_type.DOCUMENT, first_child := some 1,
        last_child := some 3, user_data := true, dfree := true },
      { type := cmark_node_type.PARAGRAPH, parent := some 0, next := some 2 },
      { type := cmark_node_type.PARAGRAPH, parent := some 0, prev := some 1,
        next := some 3, user_data := true },
      { type := cmark_node_type.PARAGRAPH, parent := some 0, prev := some 2 },
      { type := cmark_node_type.DOCUMENT, dfree := true } ]

/-- Witness for C7: unlinking the middle child 2 of the sample store makes
it a root and reconnects its neighbors 1 and 3, and unlinking the root 4 is
a no-op. -/
theorem unlink_correct_witness :
    ((rb_node_unlink storeB 2).2.get 2).parent = none
    ∧ ((rb_node_unlink storeB 2).2.get 1).next = some 3
    ∧ ((rb_node_unlink storeB 2).2.get 3).prev = some 1
    ∧ rb_node_unlink storeB 4 = (Except.ok RbValue.nil, storeB) := by
  have h := unlink_correct storeB 2 0 4 (by decide) (by decide) (by decide)
    (by decide)
    (by intro a ha
        rw [show (storeB.get 2).prev = some 1 by decide] at ha
        injection ha with he
        subst he
        decide)
    (by intro b hb
        rw [show (storeB.get 2).next = some 3 by decide] at hb
        injection hb with he
        subst he
        decide)
    (by decide) (by decide) (by decide) (by decide)
  refine ⟨h.1.2.1, ?_, ?_, h.2⟩
  · have he := h.1.2.2.2.2.2.1 1 (by decide)
    rw [he]
    decide
  · have he := h.1.2.2.2.2.2.2.1 3 (by decide)
    rw [he]
    decide

/-! ## Insert before / insert after -/

/-- Sample store for sibling insertion: two one-child trees (0 with child 1,
2 with child 3) and a lone root (4). -/
def storeC : NodeStore :=
  NodeStore.mk
    [ { type := cmark_node_type.DOCUMENT, first_child := some 1,
        last_child := some 1 },
      { type := cmark_node_type.PARAGRAPH, parent := some 0 },
      { type := cmark_node_type.DOCUMENT, first_child := some 3,
        last_child := some 3 },
      { type := cmark_node_type.PARAGRAPH, parent := some 2,
        user_data := true, dfree := true },
      { type := cmark_node_type.PARAGRAPH } ]


theorem NodeStore.get_modify (t : NodeStore) (i j : Nat)
    (f : cmark_node → cmark_node) :
    (t.modify i f).get j =
      if i = j ∧ i < t.nodes.length then f (t.get j) else t.get j := by
  by_cases hij : i = j
  · subst hij
    by_cases hlen : i < t.nodes.length
    · simp [NodeStore.modify, NodeStore.get_set_self _ _ _ hlen, hlen]
    · have hge : t.nodes.length ≤ i := Nat.le_of_not_lt hlen
      simp only [NodeStore.modify, NodeStore.set]
      rw [list_set_ge _ _ _ hge]
      simp [NodeStore.get, hlen]
  · simp [NodeStore.modify, NodeStore.get_set_ne _ _ _ _ hij, hij]


theorem NodeStore.get_modify_ne (t : NodeStore) (i j : Nat)
    (f : cmark_node → cmark_node) (h : i ≠ j) :
    (t.modify i f).get j = t.get j := by
  simp [NodeStore.modify, NodeStore.get_set_ne _ _ _ _ h]

/-! ## Field frames: single-field updates leave the other links alone -/

theorem prev_after_next_update (t : NodeStore) (i j : Nat) (v : Option Nat) :
    ((t.modify i (fun x => { x with next := v })).get j).prev =
      (t.get j).prev := by
  rw [NodeStore.get_modify]
  split <;> rfl

theorem prev_after_first_update (t : NodeStore) (i j : Nat) (v : Option Nat) :
    ((t.modify i (fun x => { x with first_child := v })).get j).prev =
      (t.get j).prev := by
  rw [NodeStore.get_modify]
  split <;> rfl

theorem prev_after_last_update (t : NodeStore) (i j : Nat) (v : Option Nat) :
    ((t.modify i (fun x => { x with last_child := v })).get j).prev =
      (t.get j).prev := by
  rw [NodeStore.get_modify]
  split <;> rfl

theorem next_after_prev_update (t : NodeStore) (i j : Nat) (v : Option Nat) :
    ((t.modify i (fun x => { x with prev := v })).get j).next =
      (t.get j).next := by
  rw [NodeStore.get_modify]
  split <;> rfl

theorem next_after_first_update (t : NodeStore) (i j : Nat) (v : Option Nat) :
    ((t.modify i (fun x => { x with first_child := v })).get j).next =
      (t.get j).next := by
  rw [NodeStore.get_modify]
  split <;> rfl

theorem next_after_last_update (t : NodeStore) (i j : Nat) (v : Option Nat) :
    ((t.modify i (fun x => { x with last_child := v })).get j).next =
      (t.get j).next := by
  rw [NodeStore.get_modify]
  split <;> rfl

theorem first_after_prev_update (t : NodeStore) (i j : Nat) (v : Option Nat) :
    ((t.modify i (fun x => { x with prev := v })).get j).first_child =
      (t.get j).first_child := by
  rw [NodeStore.get_modify]
  split <;> rfl

theorem first_after_next_update (t : NodeStore) (i j : Nat) (v : Option Nat) :
    ((t.modify i (fun x => { x with next := v })).get j).first_child =
      (t.get j).first_child := by
  rw [NodeStore.get_modify]
  split <;> rfl

theorem first_after_last_update (t : NodeStore) (i j : Nat) (v : Option Nat) :
    ((t.modify i (fun x => { x with last_child := v })).get j).first_child =
      (t.get j).first_child := by
  rw [NodeStore.get_modify]
  split <;> rfl

theorem last_after_prev_update (t : NodeStore) (i j : Nat) (v : Option Nat) :
    ((t.modify i (fun x => { x with prev := v })).get j).last_child =
      (t.get j).last_child := by
  rw [NodeStore.get_modify]
  split <;> rfl

theorem last_after_next_update (t : NodeStore) (i j : Nat) (v : Option Nat) :
    ((t.modify i (fun x => { x with next := v })).get j).last_child =
      (t.get j).last_child := by
  rw [NodeStore.get_modify]
  split <;> rfl

theorem last_after_first_update (t : NodeStore) (i j : Nat) (v : Option Nat) :
    ((t.modify i (fun x => { x with first_child := v })).get j).last_child =
      (t.get j).last_child := by
  rw [NodeStore.get_modify]
  split <;> rfl

theorem next_update_read (t : NodeStore) (i : Nat) (v : Option Nat)
    (h : i < t.nodes.length) :
    ((t.modify i (fun x => { x with next := v })).get i).next = v := by
  rw [NodeStore.get_modify]
  simp [h]

theorem prev_update_read (t : NodeStore) (i : Nat) (v : Option Nat)
    (h : i < t.nodes.length) :
    ((t.modify i (fun x => { x with prev := v })).get i).prev = v := by
  rw [NodeStore.get_modify]
  simp [h]

theorem first_update_read (t : NodeStore) (i : Nat) (v : Option Nat)
    (h : i < t.nodes.length) :
    ((t.modify i (fun x => { x with first_child := v })).get i).first_child
      = v := by
  rw [NodeStore.get_modify]
  simp [h]

theorem last_update_read (t : NodeStore) (i : Nat) (v : Option Nat)
    (h : i < t.nodes.length) :
    ((t.modify i (fun x => { x with last_child := v })).get i).last_child
      = v := by
  rw [NodeStore.get_modify]
  simp [h]

/-- Frame property: unlinking `s` leaves the previous-link of any other node
untouched, except at the direct next sibling of `s`. -/
theorem unlink_preserves_prev (t : NodeStore) (s j : Nat) (hsj : s ≠ j)
    (hne : (t.get s).next ≠ some j) :
    ((cmark_node_unlink t s).get j).prev = (t.get j).prev := by
  unfold cmark_node_unlink S_node_unlink
  cases hsn : (t.get s).next with
  | none =>
    cases hsp : (t.get s).prev <;> cases hsq : (t.get s).parent <;>
      (simp only [hsn, hsp, hsq]
       (repeat' split) <;>
         simp only [NodeStore.get_modify_ne, prev_after_next_update,
           prev_after_first_update, prev_after_last_update, hsj,
           ne_eq, not_false_eq_true])
  | some b =>
    have hbj : b ≠ j := fun h => hne (by rw [hsn, h])
    cases hsp : (t.get s).prev <;> cases hsq : (t.get s).parent <;>
      (simp only [hsn, hsp, hsq]
       (repeat' split) <;>
         simp only [NodeStore.get_modify_ne, prev_after_next_update,
           prev_after_first_update, prev_after_last_update, hsj, hbj,
           ne_eq, not_false_eq_true])

/-- Frame property: unlinking `s` leaves the next-link of any other node
untouched, except at the direct previous sibling of `s`. -/
theorem unlink_preserves_next (t : NodeStore) (s j : Nat) (hsj : s ≠ j)
    (hne : (t.get s).prev ≠ some j) :
    ((cmark_node_unlink t s).get j).next = (t.get j).next := by
  unfold cmark_node_unlink S_node_unlink
  cases hsp : (t.get s).prev with
  | none =>
    cases hsn : (t.get s).next <;> cases hsq : (t.get s).parent <;>
      (simp only [hsn, hsp, hsq]
       (repeat' split) <;>
         simp only [NodeStore.get_modify_ne, next_after_prev_update,
           next_after_first_update, next_after_last_update, hsj,
           ne_eq, not_false_eq_true])
  | some a =>
    have haj : a ≠ j := fun h => hne (by rw [hsp, h])
    cases hsn : (t.get s).next <;> cases hsq : (t.get s).parent <;>
      (simp only [hsn, hsp, hsq]
       (repeat' split) <;>
         simp only [NodeStore.get_modify_ne, next_after_prev_update,
           next_after_first_update, next_after_last_update, hsj, haj,
           ne_eq, not_false_eq_true])

/-- Unlink repair: the previous sibling of the unlinked node is relinked to
its former next sibling. -/
theorem unlink_repairs_prev_neighbor (t : NodeStore) (s sa : Nat)
    (hsa : (t.get s).prev = some sa) (hlt : sa < t.nodes.length)
    (hss : s ≠ sa) :
    ((cmark_node_unlink t s).get sa).next = (t.get s).next := by
  unfold cmark_node_unlink S_node_unlink
  cases hsn : (t.get s).next <;> cases hsq : (t.get s).parent <;>
    (simp only [hsn, hsa, hsq]
     (repeat' split) <;>
       simp only [NodeStore.get_modify_ne, next_after_prev_update,
         next_after_first_update, next_after_last_update,
         next_update_read, NodeStore.length_modify, hlt, hss, ne_eq, not_false_eq_true])

/-- Unlink repair: the next sibling of the unlinked node is relinked to its
former previous sibling. -/
theorem unlink_repairs_next_neighbor (t : NodeStore) (s sb : Nat)
    (hsb : (t.get s).next = some sb) (hlt : sb < t.nodes.length)
    (hss : s ≠ sb) :
    ((cmark_node_unlink t s).get sb).prev = (t.get s).prev := by
  unfold cmark_node_unlink S_node_unlink
  cases hsp : (t.get s).prev <;> cases hsq : (t.get s).parent <;>
    (simp only [hsb, hsp, hsq]
     (repeat' split) <;>
       simp only [NodeStore.get_modify_ne, prev_after_next_update,
         prev_after_first_update, prev_after_last_update,
         prev_update_read, NodeStore.length_modify, hlt, hss, ne_eq, not_false_eq_true])

/-- Unlink repair: when the unlinked node was the first child of its parent,
the parent first-child link moves to its former next sibling. -/
theorem unlink_repairs_parent_first (t : NodeStore) (s q : Nat)
    (hq : (t.get s).parent = some q) (hlt : q < t.nodes.length)
    (hss : s ≠ q) (hfc : (t.get q).first_child = some s) :
    ((cmark_node_unlink t s).get q).first_child = (t.get s).next := by
  unfold cmark_node_unlink S_node_unlink
  cases hsp : (t.get s).prev <;> cases hsn : (t.get s).next <;>
    (simp only [hsp, hsn, hq]
     (repeat' split) <;>
       simp_all only [NodeStore.get_modify_ne, first_after_prev_update,
         first_after_next_update, first_after_last_update,
         first_update_read, NodeStore.length_modify, hlt, hss, ne_eq, not_false_eq_true,
         not_true_eq_false])

/-- Unlink repair: when the unlinked node was the last child of its parent,
the parent last-child link moves to its former previous sibling. -/
theorem unlink_repairs_parent_last (t : NodeStore) (s q : Nat)
    (hq : (t.get s).parent = some q) (hlt : q < t.nodes.length)
    (hss : s ≠ q) (hlc : (t.get q).last_child = some s) :
    ((cmark_node_unlink t s).get q).last_child = (t.get s).prev := by
  unfold cmark_node_unlink S_node_unlink
  cases hsp : (t.get s).prev <;> cases hsn : (t.get s).next <;>
    (simp only [hsp, hsn, hq]
     (repeat' split) <;>
       simp_all only [NodeStore.get_modify_ne, last_after_prev_update,
         last_after_next_update, last_after_first_update,
         last_update_read, NodeStore.length_modify, hlt, hss, ne_eq, not_false_eq_true,
         not_true_eq_false])

/-- C8: inserting a sibling next to a root raises `NodeError` (no parent to
splice under) and leaves the store unchanged, for both insert-before and
insert-after.  For every anchor `n` with a parent `p` and every sibling `s`,
the insert succeeds, splices `s` directly adjacent to `n` with its parent
set to `p`, and clears the free function of the `s` wrapper; when the anchor
has a neighbor on the insertion side it is relinked to `s`, and when it has
none the parent first/last-child link moves to `s`; and `s` is first
unlinked from its current location (no duplication): its former previous
and next siblings are linked to each other and its former parent loses it
from its first/last-child links. -/
theorem insert_sibling_correct (t : NodeStore) (m2 s0 n s p : Nat)
    (hm : (t.get m2).parent = none)
    (hn : n < t.nodes.length) (hs : s < t.nodes.length)
    (hplt : p < t.nodes.length)
    (hp : (t.get n).parent = some p)
    (hns : n ≠ s) (hps : p ≠ s) (hpn : p ≠ n) :
    rb_node_insert_before t m2 s0 =
      (Except.error (RbErr.NodeError "could not insert before"), t)
    ∧ rb_node_insert_after t m2 s0 =
      (Except.error (RbErr.NodeError "could not insert after"), t)
    ∧ (rb_node_insert_before t n s).1 = Except.ok RbValue.nil
    ∧ ((rb_node_insert_before t n s).2.get s).parent = some p
    ∧ ((rb_node_insert_before t n s).2.get s).next = some n
    ∧ ((rb_node_insert_before t n s).2.get n).prev = some s
    ∧ ((rb_node_insert_before t n s).2.get s).dfree = false
    ∧ ((t.get s).next ≠ some n →
        (∀ a, (t.get n).prev = some a → a < t.nodes.length → a ≠ n → a ≠ s →
          a ≠ p →
          ((rb_node_insert_before t n s).2.get a).next = some s
          ∧ ((rb_node_insert_before t n s).2.get s).prev = some a)
        ∧ ((t.get n).prev = none →
          ((rb_node_insert_before t n s).2.get p).first_child = some s
          ∧ ((rb_node_insert_before t n s).2.get s).prev = none)
        ∧ (∀ sa, (t.get s).prev = some sa → sa < t.nodes.length → sa ≠ s →
            sa ≠ n → sa ≠ p → (t.get n).prev ≠ some sa →
            ((rb_node_insert_before t n s).2.get sa).next = (t.get s).next)
        ∧ (∀ sb, (t.get s).next = some sb → sb < t.nodes.length → sb ≠ s →
            sb ≠ n → sb ≠ p → (t.get n).prev ≠ some sb →
            ((rb_node_insert_before t n s).2.get sb).prev = (t.get s).prev)
        ∧ (∀ q, (t.get s).parent = some q → q < t.nodes.length → q ≠ s →
            q ≠ n → q ≠ p → (t.get n).prev ≠ some q →
            ((t.get q).first_child = some s →
              ((rb_node_insert_before t n s).2.get q).first_child =
                (t.get s).next)
            ∧ ((t.get q).last_child = some s →
              ((rb_node_insert_before t n s).2.get q).last_child =
                (t.get s).prev)))
    ∧ (rb_node_insert_after t n s).1 = Except.ok RbValue.nil
    ∧ ((rb_node_insert_after t n s).2.get s).parent = some p
    ∧ ((rb_node_insert_after t n s).2.get s).prev = some n
    ∧ ((rb_node_insert_after t n s).2.get n).next = some s
    ∧ ((rb_node_insert_after t n s).2.get s).dfree = false
    ∧ ((t.get s).prev ≠ some n →
        (∀ b, (t.get n).next = some b → b < t.nodes.length → b ≠ n → b ≠ s →
          b ≠ p →
          ((rb_node_insert_after t n s).2.get b).prev = some s
          ∧ ((rb_node_insert_after t n s).2.get s).next = some b)
        ∧ ((t.get n).next = none →
          ((rb_node_insert_after t n s).2.get p).last_child = some s
          ∧ ((rb_node_insert_after t n s).2.get s).next = none)
        ∧ (∀ sa, (t.get s).prev = some sa → sa < t.nodes.length → sa ≠ s →
            sa ≠ n → sa ≠ p → (t.get n).next ≠ some sa →
            ((rb_node_insert_after t n s).2.get sa).next = (t.get s).next)
        ∧ (∀ sb, (t.get s).next = some sb → sb < t.nodes.length → sb ≠ s →
            sb ≠ n → sb ≠ p → (t.get n).next ≠ some sb →
            ((rb_node_insert_after t n s).2.get sb).prev = (t.get s).prev)
        ∧ (∀ q, (t.get s).parent = some q → q < t.nodes.length → q ≠ s →
            q ≠ n → q ≠ p → (t.get n).next ≠ some q →
            ((t.get q).first_child = some s →
              ((rb_node_insert_after t n s).2.get q).first_child =
                (t.get s).next)
            ∧ ((t.get q).last_child = some s →
              ((rb_node_insert_after t n s).2.get q).last_child =
                (t.get s).prev))) := by
  have hsn2 : s ≠ n := Ne.symm hns
  have hsp2 : s ≠ p := Ne.symm hps
  have hnp2 : n ≠ p := Ne.symm hpn
  have hlu : (cmark_node_unlink t s).nodes.length = t.nodes.length :=
    length_cmark_node_unlink t s
  have hBfail : rb_node_insert_before t m2 s0 =
      (Except.error (RbErr.NodeError "could not insert before"), t) := by
    simp [rb_node_insert_before, cmark_node_insert_before, hm]
  have hAfail : rb_node_insert_after t m2 s0 =
      (Except.error (RbErr.NodeError "could not insert after"), t) := by
    simp [rb_node_insert_after, cmark_node_insert_after, hm]
  have hbefore : (rb_node_insert_before t n s).1 = Except.ok RbValue.nil
      ∧ ((rb_node_insert_before t n s).2.get s).parent = some p
      ∧ ((rb_node_insert_before t n s).2.get s).next = some n
      ∧ ((rb_node_insert_before t n s).2.get n).prev = some s
      ∧ ((rb_node_insert_before t n s).2.get s).dfree = false
      ∧ ((t.get s).next ≠ some n →
          (∀ a, (t.get n).prev = some a → a < t.nodes.length → a ≠ n →
            a ≠ s → a ≠ p →
            ((rb_node_insert_before t n s).2.get a).next = some s
            ∧ ((rb_node_insert_before t n s).2.get s).prev = some a)
          ∧ ((t.get n).prev = none →
            ((rb_node_insert_before t n s).2.get p).first_child = some s
            ∧ ((rb_node_insert_before t n s).2.get s).prev = none)
          ∧ (∀ sa, (t.get s).prev = some sa → sa < t.nodes.length → sa ≠ s →
              sa ≠ n → sa ≠ p → (t.get n).prev ≠ some sa →
              ((rb_node_insert_before t n s).2.get sa).next = (t.get s).next)
          ∧ (∀ sb, (t.get s).next = some sb → sb < t.nodes.length → sb ≠ s →
              sb ≠ n → sb ≠ p → (t.get n).prev ≠ some sb →
              ((rb_node_insert_before t n s).2.get sb).prev = (t.get s).prev)
          ∧ (∀ q, (t.get s).parent = some q → q < t.nodes.length → q ≠ s →
              q ≠ n → q ≠ p → (t.get n).prev ≠ some q →
              ((t.get q).first_child = some s →
                ((rb_node_insert_before t n s).2.get q).first_child =
                  (t.get s).next)
              ∧ ((t.get q).last_child = some s →
                ((rb_node_insert_before t n s).2.get q).last_child =
                  (t.get s).prev))) := by
    cases hOP : ((cmark_node_unlink t s).get n).prev with
    | some a0 =>
      refine ⟨?_, ?_, ?_, ?_, ?_, ?_⟩
      · simp [rb_node_insert_before, cmark_node_insert_before, hp, hOP]
      · simp [rb_node_insert_before, cmark_node_insert_before,
          rb_parent_added, hp, hOP, NodeStore.get_modify,
          NodeStore.length_modify, apply_ite, hlu, hs, hn, hplt, hsn2, hsp2,
          hnp2, hns, hps, hpn]
      · simp [rb_node_insert_before, cmark_node_insert_before,
          rb_parent_added, hp, hOP, NodeStore.get_modify,
          NodeStore.length_modify, apply_ite, hlu, hs, hn, hplt, hsn2, hsp2,
          hnp2, hns, hps, hpn]
      · simp [rb_node_insert_before, cmark_node_insert_before,
          rb_parent_added, hp, hOP, NodeStore.get_modify,
          NodeStore.length_modify, apply_ite, hlu, hs, hn, hplt, hsn2, hsp2,
          hnp2, hns, hps, hpn]
      · simp [rb_node_insert_before, cmark_node_insert_before,
          rb_parent_added, hp, hOP, NodeStore.get_modify,
          NodeStore.length_modify, apply_ite, hlu, hs, hn, hplt, hsn2, hsp2,
          hnp2, hns, hps, hpn]
      · intro hnb
        have hOPt : ((cmark_node_unlink t s).get n).prev = (t.get n).prev :=
          unlink_preserves_prev t s n hsn2 hnb
        have hnprev : (t.get n).prev = some a0 := by rw [← hOPt, hOP]
        refine ⟨?_, ?_, ?_, ?_, ?_⟩
        · intro a ha hal han has2 hap
          have he : a0 = a := by
            rw [hnprev] at ha
            exact Option.some.inj ha
          subst he
          have hsa0 : s ≠ a0 := Ne.symm has2
          have hna0 : n ≠ a0 := Ne.symm han
          have hpa0 : p ≠ a0 := Ne.symm hap
          constructor
          · simp [rb_node_insert_before, cmark_node_insert_before,
              rb_parent_added, hp, hOP, NodeStore.get_modify,
              NodeStore.length_modify, apply_ite, hlu, hs, hn, hplt, hal,
              hsn2, hsp2, hnp2, hns, hps, hpn, hsa0, hna0, hpa0, han, has2,
              hap]
          · simp [rb_node_insert_before, cmark_node_insert_before,
              rb_parent_added, hp, hOP, NodeStore.get_modify,
              NodeStore.length_modify, apply_ite, hlu, hs, hn, hplt, hal,
              hsn2, hsp2, hnp2, hns, hps, hpn, hsa0, hna0, hpa0]
        · intro h0
          rw [h0] at hnprev
          exact Option.noConfusion hnprev
        · intro sa hsa hsal hsas hsan hsap hnsa
          have ha0sa : a0 ≠ sa := by
            intro he
            rw [he] at hnprev
            exact hnsa hnprev
          have hssa : s ≠ sa := Ne.symm hsas
          have hnsa2 : n ≠ sa := Ne.symm hsan
          have hpsa : p ≠ sa := Ne.symm hsap
          have hrep := unlink_repairs_prev_neighbor t s sa hsa hsal hssa
          simp [rb_node_insert_before, cmark_node_insert_before,
            rb_parent_added, hp, hOP, NodeStore.get_modify,
            NodeStore.length_modify, apply_ite, hlu, hs, hn, hplt, hsn2,
            hsp2, hnp2, hns, hps, hpn, ha0sa, hssa, hnsa2, hpsa, hrep]
        · intro sb hsb hsbl hsbs hsbn hsbp hnsb
          have ha0sb : a0 ≠ sb := by
            intro he
            rw [he] at hnprev
            exact hnsb hnprev
          have hssb : s ≠ sb := Ne.symm hsbs
          have hnsb2 : n ≠ sb := Ne.symm hsbn
          have hpsb : p ≠ sb := Ne.symm hsbp
          have hrep := unlink_repairs_next_neighbor t s sb hsb hsbl hssb
          simp [rb_node_insert_before, cmark_node_insert_before,
            rb_parent_added, hp, hOP, NodeStore.get_modify,
            NodeStore.length_modify, apply_ite, hlu, hs, hn, hplt, hsn2,
            hsp2, hnp2, hns, hps, hpn, ha0sb, hssb, hnsb2, hpsb, hrep]
        · intro q hq2 hql2 hqs2 hqn2 hqp2 hnq
          have ha0q : a0 ≠ q := by
            intro he
            rw [he] at hnprev
            exact hnq hnprev
          have hsq3 : s ≠ q := Ne.symm hqs2
          have hnq2 : n ≠ q := Ne.symm hqn2
          have hpq2 : p ≠ q := Ne.symm hqp2
          constructor
          · intro hfc
            have hrep := unlink_repairs_parent_first t s q hq2 hql2 hsq3 hfc
            simp [rb_node_insert_before, cmark_node_insert_before,
              rb_parent_added, hp, hOP, NodeStore.get_modify,
              NodeStore.length_modify, apply_ite, hlu, hs, hn, hplt, hsn2,
              hsp2, hnp2, hns, hps, hpn, ha0q, hsq3, hnq2, hpq2, hrep]
          · intro hlc
            have hrep := unlink_repairs_parent_last t s q hq2 hql2 hsq3 hlc
            simp [rb_node_insert_before, cmark_node_insert_before,
              rb_parent_added, hp, hOP, NodeStore.get_modify,
              NodeStore.length_modify, apply_ite, hlu, hs, hn, hplt, hsn2,
              hsp2, hnp2, hns, hps, hpn, ha0q, hsq3, hnq2, hpq2, hrep]
    | none =>
      refine ⟨?_, ?_, ?_, ?_, ?_, ?_⟩
      · simp [rb_node_insert_before, cmark_node_insert_before, hp, hOP]
      · simp [rb_node_insert_before, cmark_node_insert_before,
          rb_parent_added, hp, hOP, NodeStore.get_modify,
          NodeStore.length_modify, apply_ite, hlu, hs, hn, hplt, hsn2, hsp2,
          hnp2, hns, hps, hpn]
      · simp [rb_node_insert_before, cmark_node_insert_before,
          rb_parent_added, hp, hOP, NodeStore.get_modify,
          NodeStore.length_modify, apply_ite, hlu, hs, hn, hplt, hsn2, hsp2,
          hnp2, hns, hps, hpn]
      · simp [rb_node_insert_before, cmark_node_insert_before,
          rb_parent_added, hp, hOP, NodeStore.get_modify,
          NodeStore.length_modify, apply_ite, hlu, hs, hn, hplt, hsn2, hsp2,
          hnp2, hns, hps, hpn]
      · simp [rb_node_insert_before, cmark_node_insert_before,
          rb_parent_added, hp, hOP, NodeStore.get_modify,
          NodeStore.length_modify, apply_ite, hlu, hs, hn, hplt, hsn2, hsp2,
          hnp2, hns, hps, hpn]
      · intro hnb
        have hOPt : ((cmark_node_unlink t s).get n).prev = (t.get n).prev :=
          unlink_preserves_prev t s n hsn2 hnb
        have hnprev : (t.get n).prev = none := by rw [← hOPt, hOP]
        refine ⟨?_, ?_, ?_, ?_, ?_⟩
        · intro a ha hal han has2 hap
          rw [hnprev] at ha
          exact Option.noConfusion ha
        · intro h0
          constructor
          · simp [rb_node_insert_before, cmark_node_insert_before,
              rb_parent_added, hp, hOP, NodeStore.get_modify,
              NodeStore.length_modify, apply_ite, hlu, hs, hn, hplt, hsn2,
              hsp2, hnp2, hns, hps, hpn]
          · simp [rb_node_insert_before, cmark_node_insert_before,
              rb_parent_added, hp, hOP, NodeStore.get_modify,
              NodeStore.length_modify, apply_ite, hlu, hs, hn, hplt, hsn2,
              hsp2, hnp2, hns, hps, hpn]
        · intro sa hsa hsal hsas hsan hsap hnsa
          have hssa : s ≠ sa := Ne.symm hsas
          have hnsa2 : n ≠ sa := Ne.symm hsan
          have hpsa : p ≠ sa := Ne.symm hsap
          have hrep := unlink_repairs_prev_neighbor t s sa hsa hsal hssa
          simp [rb_node_insert_before, cmark_node_insert_before,
            rb_parent_added, hp, hOP, NodeStore.get_modify,
            NodeStore.length_modify, apply_ite, hlu, hs, hn, hplt, hsn2,
            hsp2, hnp2, hns, hps, hpn, hssa, hnsa2, hpsa, hrep]
        · intro sb hsb hsbl hsbs hsbn hsbp hnsb
          have hssb : s ≠ sb := Ne.symm hsbs
          have hnsb2 : n ≠ sb := Ne.symm hsbn
          have hpsb : p ≠ sb := Ne.symm hsbp
          have hrep := unlink_repairs_next_neighbor t s sb hsb hsbl hssb
          simp [rb_node_insert_before, cmark_node_insert_before,
            rb_parent_added, hp, hOP, NodeStore.get_modify,
            NodeStore.length_modify, apply_ite, hlu, hs, hn, hplt, hsn2,
            hsp2, hnp2, hns, hps, hpn, hssb, hnsb2, hpsb, hrep]
        · intro q hq2 hql2 hqs2 hqn2 hqp2 hnq
          have hsq3 : s ≠ q := Ne.symm hqs2
          have hnq2 : n ≠ q := Ne.symm hqn2
          have hpq2 : p ≠ q := Ne.symm hqp2
          constructor
          · intro hfc
            have hrep := unlink_repairs_parent_first t s q hq2 hql2 hsq3 hfc
            simp [rb_node_insert_before, cmark_node_insert_before,
              rb_parent_added, hp, hOP, NodeStore.get_modify,
              NodeStore.length_modify, apply_ite, hlu, hs, hn, hplt, hsn2,
              hsp2, hnp2, hns, hps, hpn, hsq3, hnq2, hpq2, hrep]
          · intro hlc
            have hrep := unlink_repairs_parent_last t s q hq2 hql2 hsq3 hlc
            simp [rb_node_insert_before, cmark_node_insert_before,
              rb_parent_added, hp, hOP, NodeStore.get_modify,
              NodeStore.length_modify, apply_ite, hlu, hs, hn, hplt, hsn2,
              hsp2, hnp2, hns, hps, hpn, hsq3, hnq2, hpq2, hrep]
  have hafter : (rb_node_insert_after t n s).1 = Except.ok RbValue.nil
      ∧ ((rb_node_insert_after t n s).2.get s).parent = some p
      ∧ ((rb_node_insert_after t n s).2.get s).prev = some n
      ∧ ((rb_node_insert_after t n s).2.get n).next = some s
      ∧ ((rb_node_insert_after t n s).2.get s).dfree = false
      ∧ ((t.get s).prev ≠ some n →
          (∀ b, (t.get n).next = some b → b < t.nodes.length → b ≠ n →
            b ≠ s → b ≠ p →
            ((rb_node_insert_after t n s).2.get b).prev = some s
            ∧ ((rb_node_insert_after t n s).2.get s).next = some b)
          ∧ ((t.get n).next = none →
            ((rb_node_insert_after t n s).2.get p).last_child = some s
            ∧ ((rb_node_insert_after t n s).2.get s).next = none)
          ∧ (∀ sa, (t.get s).prev = some sa → sa < t.nodes.length → sa ≠ s →
              sa ≠ n → sa ≠ p → (t.get n).next ≠ some sa →
              ((rb_node_insert_after t n s).2.get sa).next = (t.get s).next)
          ∧ (∀ sb, (t.get s).next = some sb → sb < t.nodes.length → sb ≠ s →
              sb ≠ n → sb ≠ p → (t.get n).next ≠ some sb →
              ((rb_node_insert_after t n s).2.get sb).prev = (t.get s).prev)
          ∧ (∀ q, (t.get s).parent = some q → q < t.nodes.length → q ≠ s →
              q ≠ n → q ≠ p → (t.get n).next ≠ some q →
              ((t.get q).first_child = some s →
                ((rb_node_insert_after t n s).2.get q).first_child =
                  (t.get s).next)
              ∧ ((t.get q).last_child = some s →
                ((rb_node_insert_after t n s).2.get q).last_child =
                  (t.get s).prev))) := by
    cases hON : ((cmark_node_unlink t s).get n).next with
    | some b0 =>
      refine ⟨?_, ?_, ?_, ?_, ?_, ?_⟩
      · simp [rb_node_insert_after, cmark_node_insert_after, hp, hON]
      · simp [rb_node_insert_after, cmark_node_insert_after,
          rb_parent_added, hp, hON, NodeStore.get_modify,
          NodeStore.length_modify, apply_ite, hlu, hs, hn, hplt, hsn2, hsp2,
          hnp2, hns, hps, hpn]
      · simp [rb_node_insert_after, cmark_node_insert_after,
          rb_parent_added, hp, hON, NodeStore.get_modify,
          NodeStore.length_modify, apply_ite, hlu, hs, hn, hplt, hsn2, hsp2,
          hnp2, hns, hps, hpn]
      · simp [rb_node_insert_after, cmark_node_insert_after,
          rb_parent_added, hp, hON, NodeStore.get_modify,
          NodeStore.length_modify, apply_ite, hlu, hs, hn, hplt, hsn2, hsp2,
          hnp2, hns, hps, hpn]
      · simp [rb_node_insert_after, cmark_node_insert_after,
          rb_parent_added, hp, hON, NodeStore.get_modify,
          NodeStore.length_modify, apply_ite, hlu, hs, hn, hplt, hsn2, hsp2,
          hnp2, hns, hps, hpn]
      · intro hnb
        have hONt : ((cmark_node_unlink t s).get n).next = (t.get n).next :=
          unlink_preserves_next t s n hsn2 hnb
        have hnnext : (t.get n).next = some b0 := by rw [← hONt, hON]
        refine ⟨?_, ?_, ?_, ?_, ?_⟩
        · intro b hb hbl hbn hbs hbp
          have he : b0 = b := by
            rw [hnnext] at hb
            exact Option.some.inj hb
          subst he
          have hsb0 : s ≠ b0 := Ne.symm hbs
          have hnb0 : n ≠ b0 := Ne.symm hbn
          have hpb0 : p ≠ b0 := Ne.symm hbp
          constructor
          · simp [rb_node_insert_after, cmark_node_insert_after,
              rb_parent_added, hp, hON, NodeStore.get_modify,
              NodeStore.length_modify, apply_ite, hlu, hs, hn, hplt, hbl,
              hsn2, hsp2, hnp2, hns, hps, hpn, hsb0, hnb0, hpb0, hbn, hbs,
              hbp]
          · simp [rb_node_insert_after, cmark_node_insert_after,
              rb_parent_added, hp, hON, NodeStore.get_modify,
              NodeStore.length_modify, apply_ite, hlu, hs, hn, hplt, hbl,
              hsn2, hsp2, hnp2, hns, hps, hpn, hsb0, hnb0, hpb0]
        · intro h0
          rw [h0] at hnnext
          exact Option.noConfusion hnnext
        · intro sa hsa hsal hsas hsan hsap hnsa
          have hb0sa : b0 ≠ sa := by
            intro he
            rw [he] at hnnext
            exact hnsa hnnext
          have hssa : s ≠ sa := Ne.symm hsas
          have hnsa2 : n ≠ sa := Ne.symm hsan
          have hpsa : p ≠ sa := Ne.symm hsap
          have hrep := unlink_repairs_prev_neighbor t s sa hsa hsal hssa
          simp [rb_node_insert_after, cmark_node_insert_after,
            rb_parent_added, hp, hON, NodeStore.get_modify,
            NodeStore.length_modify, apply_ite, hlu, hs, hn, hplt, hsn2,
            hsp2, hnp2, hns, hps, hpn, hb0sa, hssa, hnsa2, hpsa, hrep]
        · intro sb hsb hsbl hsbs hsbn hsbp hnsb
          have hb0sb : b0 ≠ sb := by
            intro he
            rw [he] at hnnext
            exact hnsb hnnext
          have hssb : s ≠ sb := Ne.symm hsbs
          have hnsb2 : n ≠ sb := Ne.symm hsbn
          have hpsb : p ≠ sb := Ne.symm hsbp
          have hrep := unlink_repairs_next_neighbor t s sb hsb hsbl hssb
          simp [rb_node_insert_after, cmark_node_insert_after,
            rb_parent_added, hp, hON, NodeStore.get_modify,
            NodeStore.length_modify, apply_ite, hlu, hs, hn, hplt, hsn2,
            hsp2, hnp2, hns, hps, hpn, hb0sb, hssb, hnsb2, hpsb, hrep]
        · intro q hq2 hql2 hqs2 hqn2 hqp2 hnq
          have hb0q : b0 ≠ q := by
            intro he
            rw [he] at hnnext
            exact hnq hnnext
          have hsq3 : s ≠ q := Ne.symm hqs2
          have hnq2 : n ≠ q := Ne.symm hqn2
          have hpq2 : p ≠ q := Ne.symm hqp2
          constructor
          · intro hfc
            have hrep := unlink_repairs_parent_first t s q hq2 hql2 hsq3 hfc
            simp [rb_node_insert_after, cmark_node_insert_after,
              rb_parent_added, hp, hON, NodeStore.get_modify,
              NodeStore.length_modify, apply_ite, hlu, hs, hn, hplt, hsn2,
              hsp2, hnp2, hns, hps, hpn, hb0q, hsq3, hnq2, hpq2, hrep]
          · intro hlc
            have hrep := unlink_repairs_parent_last t s q hq2 hql2 hsq3 hlc
            simp [rb_node_insert_after, cmark_node_insert_after,
              rb_parent_added, hp, hON, NodeStore.get_modify,
              NodeStore.length_modify, apply_ite, hlu, hs, hn, hplt, hsn2,
              hsp2, hnp2, hns, hps, hpn, hb0q, hsq3, hnq2, hpq2, hrep]
    | none =>
      refine ⟨?_, ?_, ?_, ?_, ?_, ?_⟩
      · simp [rb_node_insert_after, cmark_node_insert_after, hp, hON]
      · simp [rb_node_insert_after, cmark_node_insert_after,
          rb_parent_added, hp, hON, NodeStore.get_modify,
          NodeStore.length_modify, apply_ite, hlu, hs, hn, hplt, hsn2, hsp2,
          hnp2, hns, hps, hpn]
      · simp [rb_node_insert_after, cmark_node_insert_after,
          rb_parent_added, hp, hON, NodeStore.get_modify,
          NodeStore.length_modify, apply_ite, hlu, hs, hn, hplt, hsn2, hsp2,
          hnp2, hns, hps, hpn]
      · simp [rb_node_insert_after, cmark_node_insert_after,
          rb_parent_added, hp, hON, NodeStore.get_modify,
          NodeStore.length_modify, apply_ite, hlu, hs, hn, hplt, hsn2, hsp2,
          hnp2, hns, hps, hpn]
      · simp [rb_node_insert_after, cmark_node_insert_after,
          rb_parent_added, hp, hON, NodeStore.get_modify,
          NodeStore.length_modify, apply_ite, hlu, hs, hn, hplt, hsn2, hsp2,
          hnp2, hns, hps, hpn]
      · intro hnb
        have hONt : ((cmark_node_unlink t s).get n).next = (t.get n).next :=
          unlink_preserves_next t s n hsn2 hnb
        have hnnext : (t.get n).next = none := by rw [← hONt, hON]
        refine ⟨?_, ?_, ?_, ?_, ?_⟩
        · intro b hb hbl hbn hbs hbp
          rw [hnnext] at hb
          exact Option.noConfusion hb
        · intro h0
          constructor
          · simp [rb_node_insert_after, cmark_node_insert_after,
              rb_parent_added, hp, hON, NodeStore.get_modify,
              NodeStore.length_modify, apply_ite, hlu, hs, hn, hplt, hsn2,
              hsp2, hnp2, hns, hps, hpn]
          · simp [rb_node_insert_after, cmark_node_insert_after,
              rb_parent_added, hp, hON, NodeStore.get_modify,
              NodeStore.length_modify, apply_ite, hlu, hs, hn, hplt, hsn2,
              hsp2, hnp2, hns, hps, hpn]
        · intro sa hsa hsal hsas hsan hsap hnsa
          have hssa : s ≠ sa := Ne.symm hsas
          have hnsa2 : n ≠ sa := Ne.symm hsan
          have hpsa : p ≠ sa := Ne.symm hsap
          have hrep := unlink_repairs_prev_neighbor t s sa hsa hsal hssa
          simp [rb_node_insert_after, cmark_node_insert_after,
            rb_parent_added, hp, hON, NodeStore.get_modify,
            NodeStore.length_modify, apply_ite, hlu, hs, hn, hplt, hsn2,
            hsp2, hnp2, hns, hps, hpn, hssa, hnsa2, hpsa, hrep]
        · intro sb hsb hsbl hsbs hsbn hsbp hnsb
          have hssb : s ≠ sb := Ne.symm hsbs
          have hnsb2 : n ≠ sb := Ne.symm hsbn
          have hpsb : p ≠ sb := Ne.symm hsbp
          have hrep := unlink_repairs_next_neighbor t s sb hsb hsbl hssb
          simp [rb_node_insert_after, cmark_node_insert_after,
            rb_parent_added, hp, hON, NodeStore.get_modify,
            NodeStore.length_modify, apply_ite, hlu, hs, hn, hplt, hsn2,
            hsp2, hnp2, hns, hps, hpn, hssb, hnsb2, hpsb, hrep]
        · intro q hq2 hql2 hqs2 hqn2 hqp2 hnq
          have hsq3 : s ≠ q := Ne.symm hqs2
          have hnq2 : n ≠ q := Ne.symm hqn2
          have hpq2 : p ≠ q := Ne.symm hqp2
          constructor
          · intro hfc
            have hrep := unlink_repairs_parent_first t s q hq2 hql2 hsq3 hfc
            simp [rb_node_insert_after, cmark_node_insert_after,
              rb_parent_added, hp, hON, NodeStore.get_modify,
              NodeStore.length_modify, apply_ite, hlu, hs, hn, hplt, hsn2,
              hsp2, hnp2, hns, hps, hpn, hsq3, hnq2, hpq2, hrep]
          · intro hlc
            have hrep := unlink_repairs_parent_last t s q hq2 hql2 hsq3 hlc
            simp [rb_node_insert_after, cmark_node_insert_after,
              rb_parent_added, hp, hON, NodeStore.get_modify,
              NodeStore.length_modify, apply_ite, hlu, hs, hn, hplt, hsn2,
              hsp2, hnp2, hns, hps, hpn, hsq3, hnq2, hpq2, hrep]
  exact ⟨hBfail, hAfail, hbefore.1, hbefore.2.1, hbefore.2.2.1,
    hbefore.2.2.2.1, hbefore.2.2.2.2.1, hbefore.2.2.2.2.2, hafter.1,
    hafter.2.1, hafter.2.2.1, hafter.2.2.2.1, hafter.2.2.2.2.1,
    hafter.2.2.2.2.2⟩

/-- Sample store for general sibling insertion: root 0 with children 1 - 2,
root 3 with children 4 - 5 - 6 (node 5 wrapped and eagerly destructible). -/
def storeD : NodeStore :=
  NodeStore.mk
    [ { type := cmark_node_type.DOCUMENT, first_child := some 1,
        last_child := some 2 },
      { type := cmark_node_type.PARAGRAPH, parent := some 0, next := some 2 },
      { type := cmark_node_type.PARAGRAPH, parent := some 0, prev := some 1 },
      { type := cmark_node_type.DOCUMENT, first_child := some 4,
        last_child := some 6 },
      { type := cmark_node_type.PARAGRAPH, parent := some 3, next := some 5 },
      { type := cmark_node_type.PARAGRAPH, parent := some 3, prev := some 4,
        next := some 6, user_data := true, dfree := true },
      { type := cmark_node_type.PARAGRAPH, parent := some 3, prev := some 5 } ]

/-- Witness for C8: inserting before the root 3 fails and leaves the store
unchanged; moving the middle child 5 before node 2 splices it between the
anchor and its previous sibling 1 and relinks its old neighbors 4 and 6 to
each other; inserting it after node 1 splices it before node 2; and moving
the sole child 3 of the second tree of `storeC` before node 1 makes it the
first child of node 0 and empties its old parent 2. -/
theorem insert_sibling_correct_witness :
    rb_node_insert_before storeD 3 1 =
      (Except.error (RbErr.NodeError "could not insert before"), storeD)
    ∧ ((rb_node_insert_before storeD 2 5).2.get 5).parent = some 0
    ∧ ((rb_node_insert_before storeD 2 5).2.get 1).next = some 5
    ∧ ((rb_node_insert_before storeD 2 5).2.get 5).prev = some 1
    ∧ ((rb_node_insert_before storeD 2 5).2.get 4).next = some 6
    ∧ ((rb_node_insert_before storeD 2 5).2.get 6).prev = some 4
    ∧ ((rb_node_insert_after storeD 1 5).2.get 2).prev = some 5
    ∧ ((rb_node_insert_before storeC 1 3).2.get 0).first_child = some 3
    ∧ ((rb_node_insert_before storeC 1 3).2.get 2).first_child = none := by
  have h1 := insert_sibling_correct storeD 3 1 2 5 0 (by decide) (by decide)
    (by decide) (by decide) (by decide) (by decide) (by decide) (by decide)
  have h2 := insert_sibling_correct storeD 3 1 1 5 0 (by decide) (by decide)
    (by decide) (by decide) (by decide) (by decide) (by decide) (by decide)
  have h3 := insert_sibling_correct storeC 4 1 1 3 0 (by decide) (by decide)
    (by decide) (by decide) (by decide) (by decide) (by decide) (by decide)
  have h1u := h1.2.2.2.2.2.2.2.1 (by decide)
  have h2u := h2.2.2.2.2.2.2.2.2.2.2.2.2.2 (by decide)
  have h3u := h3.2.2.2.2.2.2.2.1 (by decide)
  refine ⟨h1.1, h1.2.2.2.1, ?_, ?_, ?_, ?_, ?_, ?_, ?_⟩
  · exact (h1u.1 1 (by decide) (by decide) (by decide) (by decide)
      (by decide)).1
  · exact (h1u.1 1 (by decide) (by decide) (by decide) (by decide)
      (by decide)).2
  · have hx := h1u.2.2.1 4 (by decide) (by decide) (by decide) (by decide)
      (by decide) (by decide)
    rw [hx]
    decide
  · have hx := h1u.2.2.2.1 6 (by decide) (by decide) (by decide) (by decide)
      (by decide) (by decide)
    rw [hx]
    decide
  · exact (h2u.1 2 (by decide) (by decide) (by decide) (by decide)
      (by decide)).1
  · exact (h3u.2.1 (by decide)).1
  · have hx := (h3u.2.2.2.2 2 (by decide) (by decide) (by decide) (by decide)
      (by decide) (by decide)).1 (by decide)
    rw [hx]
    decide
